import Mathlib

/-!
Shallow embedding of the core logic of `WeatherArt.py` (a Streamlit weather /
music / movie recommendation page) together with proofs about it.

Conventions used throughout the embedding:
* Python `random.choice(seq)` is modelled by an oracle `r : Nat` picking
  `seq[r % len(seq)]`; theorems quantify over the oracle.
* Streamlit session state is an explicit `SessionState` record threaded
  through the functions that mutate it.
* The external fuzzy-matching library is modelled by an abstract score
  function parameter (the repository does not define it); file-system and
  network effects are modelled by explicit function parameters.
* Python exceptions are modelled with `Except`; a `try/except` block becomes
  a `match` on the `Except` value.
-/

namespace WeatherArt

/-! ### extract_youtube_id -/

/-- Characters admitted by the regex character class `[a-zA-Z0-9_-]`. -/
def ytChar (c : Char) : Bool := c.isAlpha || c.isDigit || c == '_' || c == '-'

/-- Match exactly `n` characters of the id class (the `{11}` quantifier),
returning them, or `none` when fewer than `n` such characters follow. -/
def takeExact : Nat → List Char → Option (List Char)
  | 0, _ => some []
  | _+1, [] => none
  | n+1, c :: cs => if ytChar c then (takeExact n cs).map (fun l => c :: l) else none

/-- Try one alternative `m` of the first regex at the current position:
the literal marker followed by exactly 11 id-class characters. -/
def tryMarker (m : List Char) (cs : List Char) : Option (List Char) :=
  if m.isPrefixOf cs then takeExact 11 (cs.drop m.length) else none

/-- The alternation `(?:v=|youtu\.be/|embed/|live/)([a-zA-Z0-9_-]{11})`
tried at a single position.  The four markers have pairwise distinct first
characters, so ordered alternation is the `orElse` chain below. -/
def tryAt (cs : List Char) : Option (List Char) :=
  ((tryMarker "v=".data cs).orElse fun _ =>
   ((tryMarker "youtu.be/".data cs).orElse fun _ =>
    ((tryMarker "embed/".data cs).orElse fun _ =>
     tryMarker "live/".data cs)))

/-- `re.search` for the first regex: scan positions left to right. -/
def regex1 : List Char → Option (List Char)
  | [] => none
  | c :: cs => (tryAt (c :: cs)).orElse fun _ => regex1 cs

/-- The literal part of the second regex. -/
def gLit : List Char := "googleusercontent.com/youtube.com/".data

/-- The second regex `googleusercontent\.com/youtube\.com/\d+([a-zA-Z0-9_-]+)`
tried at a single position, with the engine's backtracking between the greedy
`\d+` and the greedy captured class run made explicit: if no id-class
character follows the maximal digit run, `\d+` gives back its last digit
(possible only when it kept at least two) and the capture is that digit. -/
def tryAt2 (cs : List Char) : Option (List Char) :=
  if gLit.isPrefixOf cs then
    let rest := cs.drop gLit.length
    let ds := rest.takeWhile Char.isDigit
    let after := rest.dropWhile Char.isDigit
    if ds = [] then none
    else
      let run := after.takeWhile ytChar
      if run ≠ [] then some run
      else if 2 ≤ ds.length then some [ds.getLastD '0']
      else none
  else none

/-- `re.search` for the second regex. -/
def regex2 : List Char → Option (List Char)
  | [] => none
  | c :: cs => (tryAt2 (c :: cs)).orElse fun _ => regex2 cs

/-- Python's `sub in s` substring test. -/
def containsSub (pat : List Char) : List Char → Bool
  | [] => pat.isPrefixOf ([] : List Char)
  | c :: cs => pat.isPrefixOf (c :: cs) || containsSub pat cs

/-- `extract_youtube_id(url)`: the two regex searches followed by the plain
string-splitting fallbacks.  Python's `s.split(sep)[1]` is the text between
the first and second occurrence of `sep`, i.e. element 1 of `splitOn`.
The fallbacks can return the empty string, which Python callers treat as
falsy; this is preserved by returning `some ""` there. -/
def extract_youtube_id (url : String) : Option String :=
  match regex1 url.data with
  | some g => some (String.mk g)
  | none =>
    match regex2 url.data with
    | some g => some (String.mk g)
    | none =>
      if containsSub "youtube.com/watch?v=".data url.data then
        some ((((url.splitOn "v=").getD 1 "").splitOn "&").headD "")
      else if containsSub "youtu.be/".data url.data then
        let parts := url.splitOn "youtu.be/"
        if 1 < parts.length then some (((parts.getD 1 "").splitOn "?").headD "") else none
      else if containsSub "googleusercontent.com/youtube.com/1".data url.data then
        let parts := url.splitOn "googleusercontent.com/youtube.com/1"
        if 1 < parts.length then some (((parts.getD 1 "").splitOn "?").headD "") else none
      else none

/-- Python's `str.lower()`, modelled character-wise (so that it reduces in
the kernel; CJK characters are unaffected, as in Python). -/
def pyLower (s : String) : String := String.mk (s.data.map Char.toLower)

/-! ### Data model and session state -/

/-- A row of the video catalogue built by the Excel loader:
original dataframe index, URL, matched weather descriptions, song title. -/
structure Video where
  index : Nat
  url : String
  desc : String
  title : String
deriving DecidableEq

instance : Inhabited Video := ⟨⟨0, "", "", ""⟩⟩

/-- A movie-poster entry: title and local poster path. -/
structure Movie where
  title : String
  poster_url : String
deriving DecidableEq

instance : Inhabited Movie := ⟨⟨"", ""⟩⟩

/-- The Streamlit session state fields touched by the embedded logic. -/
structure SessionState where
  result_text : String
  recommended_youtube_id : Option String
  recommended_image_url : Option String
  recommended_weather_image_html : Option String
  weather_image_caption_desc : Option String
  recommended_music_original_indices : Finset Nat
  recommended_movie_indices : Finset Nat
deriving DecidableEq

/-- The state installed by `main` on first run: empty texts, no media,
empty no-repeat pools. -/
def initSession : SessionState :=
  { result_text := "",
    recommended_youtube_id := none,
    recommended_image_url := none,
    recommended_weather_image_html := none,
    weather_image_caption_desc := none,
    recommended_music_original_indices := ∅,
    recommended_movie_indices := ∅ }

/-- `reset_recommendation_states()`: clears the per-query display state and,
deliberately, does not touch the two recommended-index pools. -/
def reset_recommendation_states (s : SessionState) : SessionState :=
  { s with result_text := "",
           recommended_youtube_id := none,
           recommended_image_url := none,
           recommended_weather_image_html := none,
           weather_image_caption_desc := none }

/-! ### Random choice and the no-repeat pools -/

/-- `random.choice(l)` driven by an oracle `r`; for nonempty `l` every list
element is obtained for a suitable `r`. -/
def choice {α : Type} [Inhabited α] (l : List α) (r : Nat) : α :=
  l.getD (r % l.length) default

/-- The set comprehension `{video['index'] for video in all_videos}`. -/
def musicIndexSet (all_videos : List Video) : Finset Nat :=
  (all_videos.map Video.index).toFinset

/-- `get_available_music_indices`: original indices not yet recommended; when
that pool is exhausted (and the catalogue is nonempty) the recommended set is
reset to empty and the full pool is returned.  A Python `set` has no intrinsic
order; its list enumeration is modelled in first-occurrence order of the
catalogue. -/
def get_available_music_indices (all_videos : List Video) (s : SessionState) :
    List Nat × SessionState :=
  let allIdx := (all_videos.map Video.index).dedup
  let avail := allIdx.filter (fun i => decide (i ∉ s.recommended_music_original_indices))
  if avail = [] ∧ allIdx ≠ [] then
    (allIdx, { s with recommended_music_original_indices := ∅ })
  else
    (avail, s)

/-- Shared tail of the two music functions: Python's
`if youtube_id: return ok_text, youtube_id else: return bad_text, None`,
where the empty string is falsy. -/
def musicReturn (ok_text bad_text : String) (v : Video) : String × Option String :=
  match extract_youtube_id v.url with
  | some yid => if yid ≠ "" then (ok_text, some yid) else (bad_text, none)
  | none => (bad_text, none)

/-- `random_music_recommendation`: a uniformly random not-yet-recommended
video; its original index is added to the pool. -/
def random_music_recommendation (all_videos : List Video) (s : SessionState)
    (r : Nat) : (String × Option String) × SessionState :=
  if all_videos = [] then (("音樂列表為空，無法隨機推薦音樂。", none), s)
  else
    let p := get_available_music_indices all_videos s
    let availableVideos := all_videos.filter (fun v => decide (v.index ∈ p.1))
    if availableVideos = [] then (("沒有可用的音樂可以隨機推薦了。", none), p.2)
    else
      let v := choice availableVideos r
      (musicReturn "已為您隨機推薦歌曲：" "無法從連結中提取影片ID。請重新點選。" v,
       { p.2 with recommended_music_original_indices :=
           (insert v.index p.2.recommended_music_original_indices) })

/-- `find_and_recommend_music`: score the available videos against the
weather description with the external fuzzy score `pr` (partial ratio, as the
code calls it), keep those scoring at least 30, pick uniformly among the
best-scoring ones; with no match, fall back to a random recommendation.
`r` drives the tie-break choice and `rf` the fallback's choice. -/
def find_and_recommend_music (pr : String → String → Nat) (all_videos : List Video)
    (weather_desc : String) (s : SessionState) (r rf : Nat) :
    (String × Option String) × SessionState :=
  if all_videos = [] then (("音樂列表為空，無法推薦音樂。", none), s)
  else
    let p1 := get_available_music_indices all_videos s
    let av1 := all_videos.filter (fun v => decide (v.index ∈ p1.1))
    let p2 :=
      if av1 = [] then
        let q := get_available_music_indices all_videos p1.2
        (all_videos.filter (fun v => decide (v.index ∈ q.1)), q.2)
      else (av1, p1.2)
    if p2.1 = [] then (("沒有可用的音樂可以隨機推薦了。", none), p2.2)
    else
      let scored := p2.1.map (fun v => (v, (pr (pyLower weather_desc) (pyLower v.desc) : Int)))
      let matched := scored.filter (fun q => decide (30 ≤ q.2))
      let best : Int := matched.foldl (fun b q => max b q.2) (-1)
      if matched = [] then random_music_recommendation all_videos p2.2 rf
      else
        let top := (matched.filter (fun q => decide (q.2 = best))).map Prod.fst
        let v := choice top r
        (musicReturn "這樣的天氣來聽這首療癒一下吧！"
           "這樣的天氣來聽這首療癒一下吧！\n(抱歉，無法從連結中提取影片ID。)" v,
         { p2.2 with recommended_music_original_indices :=
             (insert v.index p2.2.recommended_music_original_indices) })

/-- `random_movie_recommendation`: a uniformly random not-yet-recommended
movie by list index, with the same exhaustion-reset behaviour; returns
(title, poster url, remaining count) and the updated state. -/
def random_movie_recommendation (all_movies : List Movie) (s : SessionState)
    (r : Nat) : (String × Option String × Nat) × SessionState :=
  if all_movies = [] then (("電影列表為空，無法隨機推薦電影。", none, 0), s)
  else
    let allIdx := List.range all_movies.length
    let avail := allIdx.filter (fun i => decide (i ∉ s.recommended_movie_indices))
    let p :=
      if avail = [] then (allIdx, (∅ : Finset Nat))
      else (avail, s.recommended_movie_indices)
    let si := choice p.1 r
    let m := all_movies.getD si default
    ((m.title, some m.poster_url, p.1.length - 1),
     { s with recommended_movie_indices := insert si p.2 })

/-! ### Sequences of recommendation operations (for the no-repeat invariant) -/

/-- One user-triggered recommendation operation, with its random oracles. -/
inductive RecOp where
  | findMusic (weather_desc : String) (r rf : Nat)
  | randMusic (r : Nat)
  | randMovie (r : Nat)

/-- The state transition of one operation (its displayed result dropped). -/
def recStep (pr : String → String → Nat) (all_videos : List Video)
    (all_movies : List Movie) : RecOp → SessionState → SessionState
  | RecOp.findMusic d r rf, s => (find_and_recommend_music pr all_videos d s r rf).2
  | RecOp.randMusic r, s => (random_music_recommendation all_videos s r).2
  | RecOp.randMovie r, s => (random_movie_recommendation all_movies s r).2

/-- Run a sequence of operations from a starting state. -/
def recRun (pr : String → String → Nat) (all_videos : List Video)
    (all_movies : List Movie) (ops : List RecOp) (s : SessionState) : SessionState :=
  ops.foldl (fun s op => recStep pr all_videos all_movies op s) s

/-- What one music-recommending step does to the music pool: some catalogue
index is selected; if the pool was not yet exhausted the selected index is a
fresh one and is added, and if it was exhausted the pool is first reset to
empty (so the full pool is available again) and the selected index starts the
new pool. -/
def musicStepSpec (all_videos : List Video) (s s' : SessionState) : Prop :=
  ∃ i ∈ musicIndexSet all_videos,
    s'.recommended_music_original_indices =
      insert i (if musicIndexSet all_videos ⊆ s.recommended_music_original_indices
                then ∅ else s.recommended_music_original_indices) ∧
    i ∉ (if musicIndexSet all_videos ⊆ s.recommended_music_original_indices
         then (∅ : Finset Nat) else s.recommended_music_original_indices)

/-- The analogous property of one movie-recommending step. -/
def movieStepSpec (all_movies : List Movie) (s s' : SessionState) : Prop :=
  ∃ i ∈ Finset.range all_movies.length,
    s'.recommended_movie_indices =
      insert i (if Finset.range all_movies.length ⊆ s.recommended_movie_indices
                then ∅ else s.recommended_movie_indices) ∧
    i ∉ (if Finset.range all_movies.length ⊆ s.recommended_movie_indices
         then (∅ : Finset Nat) else s.recommended_movie_indices)

/-! ### Manual city-name corrections and lookups -/

/-- The `MANUAL_CORRECTIONS` dict literal, as an association list in source
order (the literal has no duplicate keys). -/
def MANUAL_CORRECTIONS : List (String × String) := [
    ("台北市", "臺北市"), ("台北", "臺北市"), ("北市", "臺北市"), ("北", "臺北市"),
    ("新北", "新北市"), ("臺北縣", "新北市"), ("桃園", "桃園市"), ("桃園縣", "桃園市"),
    ("桃", "桃園市"), ("園", "桃園市"), ("台中", "臺中市"), ("台中市", "臺中市"),
    ("台中縣", "臺中市"), ("臺中縣", "臺中市"), ("中縣", "臺中市"), ("中市", "臺中市"),
    ("臺中", "臺中市"), ("中", "臺中市"), ("台南", "臺南市"), ("台南市", "臺南市"),
    ("臺南", "臺南市"), ("台南縣", "臺南市"), ("臺南縣", "臺南市"), ("高雄", "高雄市"),
    ("雄市", "高雄市"), ("雄", "高雄市"), ("高雄縣", "高雄市"), ("基隆", "基隆市"),
    ("基", "基隆市"), ("隆", "基隆市"), ("雞", "基隆市"), ("籠", "基隆市"),
    ("雞籠", "基隆市"), ("基隆縣", "基隆市"), ("基市", "基隆市"), ("隆市", "基隆市"),
    ("雞市", "基隆市"), ("籠市", "基隆市"), ("雞籠市", "基隆市"), ("雞籠縣", "基隆市"),
    ("雞縣", "基隆市"), ("籠縣", "基隆市"), ("新竹", "新竹市"), ("竹", "新竹市"),
    ("竹市", "新竹市"), ("竹縣", "新竹縣"), ("嘉義", "嘉義市"), ("嘉", "嘉義市"),
    ("義", "嘉義市"), ("嘉縣", "嘉義縣"), ("義縣", "嘉義縣"), ("苗栗", "苗栗縣"),
    ("苗", "苗栗縣"), ("栗", "苗栗縣"), ("栗縣", "苗栗縣"), ("苗縣", "苗栗縣"),
    ("苗栗市", "苗栗縣"), ("彰化", "彰化縣"), ("彰", "彰化縣"), ("化", "彰化縣"),
    ("彰縣", "彰化縣"), ("化縣", "彰化縣"), ("彰化市", "彰化縣"), ("南投", "南投縣"),
    ("投", "南投縣"), ("投縣", "南投縣"), ("南投市", "南投縣"), ("雲林", "雲林縣"),
    ("雲", "雲林縣"), ("林", "雲林縣"), ("雲縣", "雲林縣"), ("林縣", "雲林縣"),
    ("雲林市", "雲林縣"), ("屏東", "屏東縣"), ("屏", "屏東縣"), ("屏縣", "屏東縣"),
    ("屏東市", "屏東縣"), ("琉球嶼", "屏東縣"), ("小琉球", "屏東縣"), ("琉球", "屏東縣"),
    ("宜蘭", "宜蘭縣"), ("宜", "宜蘭縣"), ("蘭", "宜蘭縣"), ("宜縣", "宜蘭縣"),
    ("蘭縣", "宜蘭縣"), ("宜蘭市", "宜蘭縣"), ("龜山島", "宜蘭縣"), ("花蓮", "花蓮縣"),
    ("花", "花蓮縣"), ("蓮", "花蓮縣"), ("花縣", "花蓮縣"), ("蓮縣", "花蓮縣"),
    ("花蓮市", "花蓮縣"), ("台東", "臺東縣"), ("台東縣", "臺東縣"), ("台東市", "臺東市"),
    ("綠島", "臺東縣"), ("綠鳥", "臺東縣"), ("蘭嶼", "臺東縣"), ("澎湖", "澎湖縣"),
    ("澎", "澎湖縣"), ("湖", "澎湖縣"), ("澎縣", "澎湖縣"), ("湖縣", "澎湖縣"),
    ("澎湖市", "澎湖縣"), ("金門", "金門縣"), ("金", "金門縣"), ("門", "金門縣"),
    ("金縣", "金門縣"), ("門縣", "金門縣"), ("金門市", "金門縣"), ("連江", "連江縣"),
    ("連江市", "連江縣"), ("馬祖", "連江縣"), ("馬縣", "連江縣"), ("祖縣", "連江縣"),
    ("連", "連江縣"), ("江", "連江縣"), ("連縣", "連江縣")]

/-- Python dict lookup for a dict built from an association list (with
duplicate keys, the last binding would win, as in Python). -/
def dictGet (l : List (String × String)) (k : String) : Option String :=
  ((l.filter (fun p => decide (p.1 = k))).getLast?).map Prod.snd

/-! ### Image files -/

/-- The `IMAGE_EXTENSIONS` constant. -/
def IMAGE_EXTENSIONS : List String := ["png", "gif", "jpg", "jpeg"]

/-- `os.path.join(a, b)` for a single relative or absolute component `b`. -/
def pathJoin (a b : String) : String :=
  if ("/".data).isPrefixOf b.data then b
  else if a = "" then b
  else if ("/".data).isPrefixOf a.data.reverse then a ++ b
  else a ++ "/" ++ b

/-- `get_image_path_or_default(base_dir, code)` over an abstract file-system
existence test `ex`: first existing `code.<ext>` in extension order, else
first existing `default.<ext>`, else `None`. -/
def get_image_path_or_default (ex : String → Bool) (base_dir code : String) :
    Option String :=
  match (IMAGE_EXTENSIONS.map (fun e => pathJoin base_dir (code ++ "." ++ e))).find? ex with
  | some p => some p
  | none =>
    (IMAGE_EXTENSIONS.map (fun e => pathJoin base_dir ("default." ++ e))).find? ex

/-! ### Base64 and the image/background helpers -/

/-- The base64 alphabet. -/
def b64Alphabet : List Char :=
  "ABCDEFGHIJKLMNOPQRSTUVWXYZabcdefghijklmnopqrstuvwxyz0123456789+/".data

/-- Standard base64 encoding of a byte list (`base64.b64encode`). -/
def base64Encode : List UInt8 → String
  | [] => ""
  | [a] =>
    let n := a.toNat
    String.mk [b64Alphabet.getD (n / 4) 'A', b64Alphabet.getD (n % 4 * 16) 'A'] ++ "=="
  | [a, b] =>
    let n := a.toNat * 256 + b.toNat
    String.mk [b64Alphabet.getD (n / 1024) 'A', b64Alphabet.getD (n / 16 % 64) 'A',
               b64Alphabet.getD (n % 16 * 4) 'A'] ++ "="
  | a :: b :: c :: rest =>
    let n := (a.toNat * 256 + b.toNat) * 256 + c.toNat
    String.mk [b64Alphabet.getD (n / 262144) 'A', b64Alphabet.getD (n / 4096 % 64) 'A',
               b64Alphabet.getD (n / 64 % 64) 'A', b64Alphabet.getD (n % 64) 'A'] ++
    base64Encode rest

/-- The CSS block `set_background` injects, parameterised by the encoded
image. -/
def backgroundCss (encoded : String) : String :=
  "<style>.stApp \x7b background-image: url(\"data:image/jpg;base64," ++ encoded ++
  "\"); background-size: cover; background-repeat: no-repeat; background-attachment: fixed; \x7d</style>"

/-- `set_background(image_file)`: opens the file with NO exception handler,
so a missing file propagates the exception to the caller; modelled by an
`Except` result over an abstract file system `fs`. -/
def set_background (image_file : String) (fs : String → Option (List UInt8)) :
    Except String String :=
  match fs image_file with
  | none => Except.error ("FileNotFoundError: " ++ image_file)
  | some bytes => Except.ok (backgroundCss (base64Encode bytes))

/-- `load_local_image_as_base64(image_path, width, height)`: `None` for a
falsy path or a missing file, otherwise an `<img>` tag with the encoded
bytes; the extension is the last `.`-separated component, lower-cased, with
`jpg` mapped to the `jpeg` MIME type. -/
def load_local_image_as_base64 (fs : String → Option (List UInt8))
    (image_path : String) (width height : Option Nat) : Option String :=
  if image_path = "" then none
  else
    match fs image_path with
    | none => none
    | some contents =>
      let file_extension := pyLower ((image_path.splitOn ".").getLastD "")
      let mime_type := "image/" ++ (if file_extension = "jpg" then "jpeg" else file_extension)
      let style_attrs :=
        (match width with
         | some w => ["width: " ++ toString w ++ "px;"]
         | none => []) ++
        (match height with
         | some h => ["height: " ++ toString h ++ "px;"]
         | none => [])
      let style_str := String.intercalate " " style_attrs
      some ("<img src=\"data:" ++ mime_type ++ ";base64," ++ base64Encode contents ++
            "\" alt=\"圖片\" style=\"" ++ style_str ++ "\">")

/-! ### Data loaders and the API-key read -/

/-- One raw row of the Excel sheet, already stringified as the Python code
does with `str(...)`: URL cell, matched descriptions cell, and the song-title
cell when that column exists. -/
structure XRow where
  url : String
  mdesc : String
  songTitle : Option String
deriving DecidableEq

/-- The Excel loader `initialize_videos(excel_path)` (renamed here), over the
outcome of `pd.read_excel`: any exception yields the empty catalogue;
otherwise rows with nonempty URL and description become videos keeping their
dataframe index. -/
def init_videos (read_result : Except String (List XRow)) : List Video :=
  match read_result with
  | Except.error _ => []
  | Except.ok rows =>
    (rows.enum).filterMap (fun q =>
      let index := q.1
      let row := q.2
      let url := row.url.trim
      let desc := row.mdesc.trim
      let song_title :=
        (match row.songTitle with
         | some t => t
         | none => if desc ≠ "" then ((desc.splitOn ",").headD "") else "未知歌曲").trim
      if url ≠ "" ∧ desc ≠ "" then some ⟨index, url, desc, song_title⟩ else none)

/-- Insertion into a Python dict represented as an ordered association list:
an existing key keeps its position but takes the new value. -/
def pyDictInsert (l : List (String × String)) (kv : String × String) :
    List (String × String) :=
  if l.any (fun p => decide (p.1 = kv.1)) then
    l.map (fun p => if p.1 = kv.1 then (p.1, kv.2) else p)
  else l ++ [kv]

/-- Build a Python dict (ordered, last value wins) from rows. -/
def pyDictOf (rows : List (String × String)) : List (String × String) :=
  rows.foldl pyDictInsert []

/-- `load_weather_codes(csv_path)`: empty mapping when the file is missing or
reading raises; otherwise the description-to-code dict from the CSV rows. -/
def load_weather_codes (file_exists : Bool)
    (read_result : Except String (List (String × String))) :
    List (String × String) :=
  if !file_exists then []
  else
    match read_result with
    | Except.error _ => []
    | Except.ok rows => pyDictOf rows

/-- The module-level API-key read: `st.secrets["API_KEY"]` with the
`KeyError` caught and turned into an error banner; returns the key when
present and whether the banner was shown.  No exception escapes. -/
def read_api_key (secrets : List (String × String)) : Option String × Bool :=
  match dictGet secrets "API_KEY" with
  | some k => (some k, false)
  | none => (none, true)

/-! ### Datetimes and `strptime('%Y-%m-%d %H:%M:%S')` -/

/-- A parsed datetime (naive, as `datetime.datetime`). -/
structure DT where
  year : Nat
  month : Nat
  day : Nat
  hour : Nat
  minute : Nat
  second : Nat
deriving DecidableEq

instance : Inhabited DT := ⟨⟨1, 1, 1, 0, 0, 0⟩⟩

/-- Numeric value of an ASCII digit. -/
def digitVal (c : Char) : Nat := c.toNat - '0'.toNat

/-- Exactly four digits (the `%Y` pattern). -/
def read4 : List Char → Option (Nat × List Char)
  | a :: b :: c :: d :: rest =>
    if a.isDigit && b.isDigit && c.isDigit && d.isDigit then
      some (((digitVal a * 10 + digitVal b) * 10 + digitVal c) * 10 + digitVal d, rest)
    else none
  | _ => none

/-- A one- or two-digit field: the two-digit branch is taken when two digits
follow and their value satisfies the two-digit alternatives of the pattern;
otherwise a single digit satisfying the one-digit alternative.  This is the
behaviour of the ordered regex alternations `strptime` compiles (`%m`, `%d`,
`%H`, `%M`, `%S`), given that the next format token is a non-digit literal
or the end of the string. -/
def read2or1 (valid2 : Nat → Bool) (valid1 : Nat → Bool) :
    List Char → Option (Nat × List Char)
  | c1 :: c2 :: rest =>
    if c1.isDigit && c2.isDigit && valid2 (digitVal c1 * 10 + digitVal c2) then
      some (digitVal c1 * 10 + digitVal c2, rest)
    else if c1.isDigit && valid1 (digitVal c1) then some (digitVal c1, c2 :: rest)
    else none
  | [c1] => if c1.isDigit && valid1 (digitVal c1) then some (digitVal c1, []) else none
  | [] => none

/-- A literal separator character. -/
def expectChar (ch : Char) : List Char → Option (List Char)
  | c :: rest => if c = ch then some rest else none
  | [] => none

/-- Whitespace in a `strptime` format matches one or more whitespace
characters of the input. -/
def expectWs (cs : List Char) : Option (List Char) :=
  match cs with
  | c :: rest => if c.isWhitespace then some (rest.dropWhile Char.isWhitespace) else none
  | [] => none

/-- Gregorian leap year. -/
def isLeap (y : Nat) : Bool := (y % 4 = 0 && y % 100 ≠ 0) || y % 400 = 0

/-- Days in a month of a given year. -/
def daysInMonth (y m : Nat) : Nat :=
  if m = 2 then (if isLeap y then 29 else 28)
  else if m = 4 ∨ m = 6 ∨ m = 9 ∨ m = 11 then 30 else 31

/-- `datetime.strptime(s, '%Y-%m-%d %H:%M:%S')`: the regex match followed by
the validation the `datetime` constructor performs (year at least 1, day
within the month, seconds below 60). -/
def strptimeYmdHMS (s : String) : Option DT := do
  let (y, cs) ← read4 s.data
  let cs ← expectChar '-' cs
  let (m, cs) ← read2or1 (fun v => 1 ≤ v && v ≤ 12) (fun v => 1 ≤ v) cs
  let cs ← expectChar '-' cs
  let (d, cs) ← read2or1 (fun v => 1 ≤ v && v ≤ 31) (fun v => 1 ≤ v) cs
  let cs ← expectWs cs
  let (h, cs) ← read2or1 (fun v => v ≤ 23) (fun _ => true) cs
  let cs ← expectChar ':' cs
  let (mi, cs) ← read2or1 (fun v => v ≤ 59) (fun _ => true) cs
  let cs ← expectChar ':' cs
  let (sec, cs) ← read2or1 (fun v => v ≤ 61) (fun _ => true) cs
  if cs = [] ∧ 1 ≤ y ∧ d ≤ daysInMonth y m ∧ sec ≤ 59 then
    some ⟨y, m, d, h, mi, sec⟩
  else none

/-- Leap days occurring strictly before year `y`, counted from year 1. -/
def leapsBefore (y : Nat) : Nat := (y - 1) / 4 + (y - 1) / 400 - (y - 1) / 100

/-- Days in the months of year `y` strictly before month `m`. -/
def daysBeforeMonth (y m : Nat) : Nat :=
  ((List.range (m - 1)).map (fun i => daysInMonth y (i + 1))).foldl (· + ·) 0

/-- A valid datetime as seconds on the proleptic Gregorian timeline; Python's
datetime comparison and subtraction agree with comparison and subtraction of
this count. -/
def dtToSec (t : DT) : Nat :=
  ((t.year - 1) * 365 + leapsBefore t.year + daysBeforeMonth t.year t.month +
    (t.day - 1)) * 86400 + t.hour * 3600 + t.minute * 60 + t.second

/-! ### The weather API payload and `get_weather_data` -/

/-- One `time` entry of a weather element (fields the code reads). -/
structure TimeEntry where
  startTime : String
  endTime : String
  parameterName : String
deriving DecidableEq

/-- One `weatherElement` entry. -/
structure WElem where
  elementName : String
  time : List TimeEntry
deriving DecidableEq

/-- One `location` entry. -/
structure LocationData where
  weatherElement : List WElem
deriving DecidableEq

/-- The decoded JSON payload: `records.location` when both keys are present. -/
structure Payload where
  recordsLocation : Option (List LocationData)
deriving DecidableEq

/-- The dictionary `get_weather_data` returns.  Python's error dictionaries
carry only `status` and `display_text`; the remaining fields are then
irrelevant and modelled as empty strings. -/
structure WeatherData where
  status : String
  display_text : String
  description : String
  min_temp : String
  max_temp : String
  pop : String
deriving DecidableEq

/-- An error-status result. -/
def werr (msg : String) : WeatherData :=
  { status := "error", display_text := msg, description := "",
    min_temp := "", max_temp := "", pop := "" }

/-- `next((e for e in l if e['elementName'] == name), None)`. -/
def findElem (name : String) (l : List WElem) : Option WElem :=
  l.find? (fun e => decide (e.elementName = name))

/-- The PoP/MinT/MaxT loop: walk the entries in order, parsing both bounds of
each (a parse failure raises, modelled as `Except.error`), and stop at the
first interval containing the forecast start. -/
def scanInterval (startSec : Nat) : List TimeEntry → Except String (Option String)
  | [] => Except.ok none
  | t :: ts =>
    match strptimeYmdHMS t.startTime, strptimeYmdHMS t.endTime with
    | some ps, some pe =>
      if dtToSec ps ≤ startSec ∧ startSec < dtToSec pe then Except.ok (some t.parameterName)
      else scanInterval startSec ts
    | _, _ => Except.error "time data does not match format"

/-- The PoP block: "N/A" without the element; otherwise the matched interval
value plus `%`, and when NO interval matched (tracked by a flag) the first
entry's value plus `%` if any entry exists.  A scan exception propagates. -/
def popLogic (e : Option WElem) (startSec : Nat) : Except String String :=
  match e with
  | none => Except.ok "N/A"
  | some el =>
    match scanInterval startSec el.time with
    | Except.error err => Except.error err
    | Except.ok (some p) => Except.ok (p ++ "%")
    | Except.ok none =>
      match el.time with
      | [] => Except.ok "N/A"
      | t0 :: _ => Except.ok (t0.parameterName ++ "%")

/-- The MinT/MaxT block: like PoP but without the `%` suffix and with the
fallback triggered by the VALUE still being "N/A" rather than by a flag. -/
def tempLogic (e : Option WElem) (startSec : Nat) : Except String String :=
  match e with
  | none => Except.ok "N/A"
  | some el =>
    match scanInterval startSec el.time with
    | Except.error err => Except.error err
    | Except.ok r =>
      let v := match r with | some p => p | none => "N/A"
      if v = "N/A" then
        match el.time with
        | [] => Except.ok v
        | t0 :: _ => Except.ok t0.parameterName
      else Except.ok v

/-- The time-of-day phrase for the forecast start hour. -/
def wxTimeDesc (hour : Nat) : String :=
  if hour < 6 then "午夜到早晨"
  else if hour < 12 then "早晨到中午"
  else if hour < 18 then "中午到傍晚"
  else "傍晚到午夜"

/-- Python's `min(l, key=f)`: the first element with minimal key. -/
def minByKey (f : TimeEntry → Nat) (t : TimeEntry) (ts : List TimeEntry) : TimeEntry :=
  ts.foldl (fun b x => if f x < f b then x else b) t

/-- The key of the `min(..., key=...)` call choosing the forecast closest to
now: the absolute distance between the entry's start time and now. -/
def forecastKey (now : DT) : TimeEntry → Nat :=
  fun x => Nat.dist (dtToSec ((strptimeYmdHMS x.startTime).getD default)) (dtToSec now)

/-- The tail of the `try` block once the forecast is chosen: the three
interval scans (any of which can raise) and the assembly of the success
dictionary. -/
def gwdAssemble (city_name : String) (location_data : LocationData) (desc : String)
    (start_dt : DT) : Except String WeatherData :=
  let startSec := dtToSec start_dt
  let time_desc := wxTimeDesc start_dt.hour
  match popLogic (findElem "PoP" location_data.weatherElement) startSec with
  | Except.error e => Except.error e
  | Except.ok pop =>
    match tempLogic (findElem "MinT" location_data.weatherElement) startSec with
    | Except.error e => Except.error e
    | Except.ok min_temp =>
      match tempLogic (findElem "MaxT" location_data.weatherElement) startSec with
      | Except.error e => Except.error e
      | Except.ok max_temp =>
        let display_text :=
          city_name ++ " " ++ toString start_dt.month ++ "/" ++ toString start_dt.day ++
          " " ++ time_desc ++ "是：**" ++ desc ++ "**，氣溫介於 **" ++ min_temp ++
          "°C** 到 **" ++ max_temp ++ "°C**，降雨機率 **" ++ pop ++ "** 喔！"
        Except.ok { status := "success", display_text := display_text, description := desc,
                    min_temp := min_temp, max_temp := max_temp, pop := pop }

/-- The body of the `try` block of `get_weather_data` given a decoded
payload: the early `return` error dictionaries are `Except.ok (werr ...)`,
an uncaught exception inside the block is `Except.error`. -/
def gwdCore (city_name : String) (now : DT) (data : Payload) :
    Except String WeatherData :=
  match data.recordsLocation with
  | some (location_data :: _) =>
    match findElem "Wx" location_data.weatherElement with
    | none => Except.ok (werr ("無法取得 " ++ city_name ++ " 天氣資料：缺少 Wx 元素。"))
    | some wx_element =>
      match wx_element.time.filter (fun t => (strptimeYmdHMS t.startTime).isSome) with
      | [] => Except.ok (werr ("無法取得 " ++ city_name ++ " 天氣資料：預報時間數據無效。"))
      | f0 :: frest =>
        let forecast := minByKey (forecastKey now) f0 frest
        gwdAssemble city_name location_data forecast.parameterName
          ((strptimeYmdHMS forecast.startTime).getD default)
  | _ => Except.ok (werr ("無法取得 " ++ city_name ++ " 天氣資料：資料結構異常或該縣市無預報資料。"))

/-- `get_weather_data(city_name)`: the network layer is an `Except` of the
decoded payload (request exceptions and JSON decoding folded into the error
side); the generic `except Exception` handler wraps an escaped exception
into an error dictionary. -/
def get_weather_data (city_name : String) (now : DT) (resp : Except String Payload) :
    WeatherData :=
  match resp with
  | Except.error e =>
    werr ("無法取得 " ++ city_name ++ " 天氣資料：網路或 API 錯誤 (" ++ e ++
          ")。請檢查您的 API 金鑰是否有效。")
  | Except.ok data =>
    match gwdCore city_name now data with
    | Except.ok r => r
    | Except.error e => werr ("處理 " ++ city_name ++ " 天氣資料時發生錯誤: " ++ e)

/-- Whether the PoP/MinT/MaxT loop raises on this entry list: some entry
with an unparseable bound is reached before an interval containing the
forecast start. -/
def scanFailure (startSec : Nat) : List TimeEntry → Bool
  | [] => false
  | t :: ts =>
    match strptimeYmdHMS t.startTime, strptimeYmdHMS t.endTime with
    | some ps, some pe =>
      if dtToSec ps ≤ startSec ∧ startSec < dtToSec pe then false
      else scanFailure startSec ts
    | _, _ => true

/-- Whether an optional element's scan raises. -/
def elemScanFailure (e : Option WElem) (startSec : Nat) : Bool :=
  match e with
  | none => false
  | some el => scanFailure startSec el.time

/-- The forecast-start second chosen from a nonempty list of valid Wx
entries. -/
def forecastStartSec (now : DT) (f0 : TimeEntry) (frest : List TimeEntry) : Nat :=
  dtToSec ((strptimeYmdHMS (minByKey (forecastKey now) f0 frest).startTime).getD default)

/-- The exact success condition of `get_weather_data` on a decoded payload:
nonempty `records.location`, a `Wx` element in the first location with at
least one entry whose `startTime` parses, and no parse failure in the three
interval scans relative to the chosen forecast. -/
def gwdSuccessCheck (now : DT) (data : Payload) : Bool :=
  match data.recordsLocation with
  | some (location_data :: _) =>
    match findElem "Wx" location_data.weatherElement with
    | none => false
    | some wx_element =>
      match wx_element.time.filter (fun t => (strptimeYmdHMS t.startTime).isSome) with
      | [] => false
      | f0 :: frest =>
        let startSec := forecastStartSec now f0 frest
        !elemScanFailure (findElem "PoP" location_data.weatherElement) startSec &&
        !elemScanFailure (findElem "MinT" location_data.weatherElement) startSec &&
        !elemScanFailure (findElem "MaxT" location_data.weatherElement) startSec
  | _ => false

/-! ### process_query -/

/-- The effectful context `process_query` runs in: the weather fetch (as a
function of the city it is called with), the local file system, and the two
external fuzzy scores (partial ratio `pr` for music matching, plain ratio
`ratioFn` for weather-code matching). -/
structure Env where
  gwd : String → WeatherData
  fs : String → Option (List UInt8)
  pr : String → String → Nat
  ratioFn : String → String → Nat

/-- The exact weather-code match: first dict item whose description equals
the weather description. -/
def exactLookup (codes : List (String × String)) (weather_desc : String) :
    Option String :=
  (codes.find? (fun p => decide (p.1 = weather_desc))).map Prod.snd

/-- The fuzzy weather-code fallback: highest `fuzz.ratio` wins, first
maximum kept (strict improvement required), starting from score -1, so the
result is `none` only for an empty mapping. -/
def fuzzyLookup (ratioFn : String → String → Nat)
    (codes : List (String × String)) (weather_desc : String) : Option String :=
  (codes.foldl (fun (acc : Int × Option String) p =>
    let score : Int := ratioFn (pyLower weather_desc) (pyLower p.1)
    if acc.1 < score then (score, some p.2) else acc) ((-1 : Int), none)).2

/-- `WEATHER_IMAGES_DIR`. -/
def WEATHER_IMAGES_DIR : String := "images"

/-- `process_query(...)`: the embedding also returns the city name
`get_weather_data` was invoked with (`none` when no weather lookup was
performed), so that theorems can speak about the lookup argument.
`r` drives the music selection and `rf` a fallback selection. -/
def process_query (env : Env) (city_input : String) (location_names : List String)
    (all_videos : List Video) (movie_poster_urls : List Movie)
    (recommend_music : Bool) (loaded_weather_codes : List (String × String))
    (s0 : SessionState) (r rf : Nat) : SessionState × Option String :=
  let s := reset_recommendation_states s0
  if city_input = "" then
    ({ s with result_text := "請輸入縣市名稱或天氣關鍵字！" }, none)
  else
    let matched_city : Option String :=
      match dictGet MANUAL_CORRECTIONS city_input with
      | some c => some c
      | none => if city_input ∈ location_names then some city_input else none
    match matched_city with
    | some mc =>
      let weather_data_raw := env.gwd mc
      if weather_data_raw.status = "success" then
        let weather_desc := weather_data_raw.description
        let s := { s with result_text := weather_data_raw.display_text }
        let weather_code : Option String :=
          match exactLookup loaded_weather_codes weather_desc with
          | some c => some c
          | none => fuzzyLookup env.ratioFn loaded_weather_codes weather_desc
        let s :=
          match weather_code with
          | some code =>
            if code ≠ "" then
              match get_image_path_or_default (fun p => (env.fs p).isSome)
                      WEATHER_IMAGES_DIR code with
              | some found_image_path =>
                { s with recommended_weather_image_html :=
                           load_local_image_as_base64 env.fs found_image_path (some 70) none,
                         weather_image_caption_desc := some weather_desc }
              | none =>
                { s with recommended_weather_image_html := none,
                         weather_image_caption_desc :=
                           some ("天氣：" ++ weather_desc ++ " (無圖片可用)") }
            else
              { s with recommended_weather_image_html := none,
                       weather_image_caption_desc :=
                         some ("天氣：" ++ weather_desc ++ " (無匹配代碼或圖片可用)") }
          | none =>
            { s with recommended_weather_image_html := none,
                     weather_image_caption_desc :=
                       some ("天氣：" ++ weather_desc ++ " (無匹配代碼或圖片可用)") }
        if recommend_music then
          let m := find_and_recommend_music env.pr all_videos weather_desc s r rf
          ({ m.2 with result_text := s.result_text ++ "\n\n" ++ m.1.1,
                      recommended_youtube_id := m.1.2 }, some mc)
        else (s, some mc)
      else
        let s := { s with result_text := weather_data_raw.display_text }
        match get_image_path_or_default (fun p => (env.fs p).isSome)
                WEATHER_IMAGES_DIR "default" with
        | some default_image_path =>
          ({ s with recommended_weather_image_html :=
                      load_local_image_as_base64 env.fs default_image_path (some 70) none,
                    weather_image_caption_desc :=
                      some ("無法取得 " ++ mc ++ " 天氣資料") }, some mc)
        | none =>
          ({ s with recommended_weather_image_html := none,
                    weather_image_caption_desc :=
                      some ("無法取得 " ++ mc ++ " 天氣資料 (無圖片可用)") }, some mc)
    | none =>
      let m := random_music_recommendation all_videos s r
      ({ m.2 with result_text := m.1.1,
                  recommended_youtube_id := m.1.2,
                  recommended_weather_image_html := none,
                  weather_image_caption_desc := none }, none)

/-! ### Derived views of the music selection (for the tie-break theorems) -/

/-- The available videos as `find_and_recommend_music` computes them (for a
nonempty catalogue its inner retry never fires, see `find_eq_matched`). -/
def availableVideosAt (all_videos : List Video) (s : SessionState) : List Video :=
  all_videos.filter (fun v => decide (v.index ∈ (get_available_music_indices all_videos s).1))

/-- The fuzzy score of one video against a weather description. -/
def scoreOf (pr : String → String → Nat) (weather_desc : String) (v : Video) : Nat :=
  pr (pyLower weather_desc) (pyLower v.desc)

/-- The maximal fuzzy score over the available videos (0 when none). -/
def maxScoreAt (pr : String → String → Nat) (weather_desc : String)
    (all_videos : List Video) (s : SessionState) : Nat :=
  ((availableVideosAt all_videos s).map (scoreOf pr weather_desc)).foldr max 0

/-- The available videos attaining the maximal fuzzy score: the top-score
set the specification speaks about. -/
def topAt (pr : String → String → Nat) (weather_desc : String)
    (all_videos : List Video) (s : SessionState) : List Video :=
  (availableVideosAt all_videos s).filter
    (fun v => decide (scoreOf pr weather_desc v = maxScoreAt pr weather_desc all_videos s))

/-- The scored-and-thresholded list `matched_available_videos_with_score`. -/
def matchedAt (pr : String → String → Nat) (weather_desc : String)
    (all_videos : List Video) (s : SessionState) : List (Video × Int) :=
  (((availableVideosAt all_videos s).map
      (fun v => (v, (pr (pyLower weather_desc) (pyLower v.desc) : Int))))).filter
    (fun q => decide (30 ≤ q.2))

/-- `best_score_overall` as the loop computes it. -/
def bestAt (pr : String → String → Nat) (weather_desc : String)
    (all_videos : List Video) (s : SessionState) : Int :=
  (matchedAt pr weather_desc all_videos s).foldl (fun b q => max b q.2) (-1)

/-- The candidate list `top_score_matches` handed to `random.choice`. -/
def codeTopAt (pr : String → String → Nat) (weather_desc : String)
    (all_videos : List Video) (s : SessionState) : List Video :=
  ((matchedAt pr weather_desc all_videos s).filter
    (fun q => decide (q.2 = bestAt pr weather_desc all_videos s))).map Prod.fst

/-- The video the tie-break branch selects, under oracle `r`. -/
def selectedOf (pr : String → String → Nat) (weather_desc : String)
    (all_videos : List Video) (s : SessionState) (r : Nat) : Video :=
  choice (codeTopAt pr weather_desc all_videos s) r

/-! ### Concrete fixtures for witnesses and counterexamples -/

/-- A constant fuzzy score above the threshold. -/
def prConst50 : String → String → Nat := fun _ _ => 50

/-- A constant fuzzy score below the threshold. -/
def prConst0 : String → String → Nat := fun _ _ => 0

/-- Three-video catalogue with distinct descriptions and ids. -/
def vidA : Video := ⟨0, "https://youtu.be/aaaaaaaaaaa", "a", "A"⟩

def vidB : Video := ⟨1, "https://youtu.be/bbbbbbbbbbb", "b", "B"⟩

def vidC : Video := ⟨2, "https://youtu.be/ccccccccccc", "c", "C"⟩

def aV3 : List Video := [vidA, vidB, vidC]

/-- Scores descriptions "a" and "b" at 10 and everything else at 0: two
videos tie at the maximum and every score is below the threshold 30. -/
def prTie10 : String → String → Nat :=
  fun _ d => if d = "a" then 10 else if d = "b" then 10 else 0

/-- One-movie catalogue. -/
def movM : Movie := ⟨"m", "movie/m.jpg"⟩

def aM1 : List Movie := [movM]

/-- Two-video catalogue for the free-text query counterexample: the first
video's description is exactly the query keyword. -/
def aVMood : List Video :=
  [⟨0, "https://youtu.be/aaaaaaaaaaa", "心情", "A"⟩,
   ⟨1, "https://youtu.be/bbbbbbbbbbb", "zzz", "B"⟩]

/-- Perfect score on the keyword description, zero elsewhere. -/
def prMood : String → String → Nat :=
  fun a d => if a = "心情" ∧ d = "心情" then 100 else 0

/-- An environment with a failing weather service and empty file system. -/
def envMood : Env :=
  { gwd := fun _ => werr "x", fs := fun _ => none, pr := prMood,
    ratioFn := fun _ _ => 0 }

/-- A payload whose Wx data satisfies every condition the specification
names, while the PoP element has an unparseable `startTime`. -/
def wxEntryOK : TimeEntry := ⟨"2024-01-01 12:00:00", "2024-01-01 18:00:00", "晴天"⟩

def popEntryBad : TimeEntry := ⟨"bad", "2024-01-01 18:00:00", "10"⟩

def plPopBad : Payload := ⟨some [⟨[⟨"Wx", [wxEntryOK]⟩, ⟨"PoP", [popEntryBad]⟩]⟩]⟩

def nowFix : DT := ⟨2024, 1, 1, 12, 0, 0⟩

/-! ### Helper lemmas -/

section Lemmas

/-- `choice` of a nonempty list is a member. -/
theorem choice_mem {α : Type} [Inhabited α] (l : List α) (r : Nat) (h : l ≠ []) :
    choice l r ∈ l := by
  have hpos : 0 < l.length := List.length_pos.mpr h
  have hlt : r % l.length < l.length := Nat.mod_lt _ hpos
  simp only [choice, List.getD_eq_getElem?_getD]
  rw [List.getElem?_eq_getElem hlt]
  exact List.getElem_mem _

end Lemmas

/-! ### C9: frame of reset_recommendation_states -/

/-- C9: `reset_recommendation_states` clears the per-query display state
(`result_text`, `recommended_youtube_id`, `recommended_image_url`,
`recommended_weather_image_html`, `weather_image_caption_desc`) and leaves
`recommended_music_original_indices` and `recommended_movie_indices`
unchanged, so the no-repeat pools survive every new query or recommendation
request. -/
theorem C9_reset_clears_display_keeps_pools (s : SessionState) :
    (reset_recommendation_states s).result_text = "" ∧
    (reset_recommendation_states s).recommended_youtube_id = none ∧
    (reset_recommendation_states s).recommended_image_url = none ∧
    (reset_recommendation_states s).recommended_weather_image_html = none ∧
    (reset_recommendation_states s).weather_image_caption_desc = none ∧
    (reset_recommendation_states s).recommended_music_original_indices =
      s.recommended_music_original_indices ∧
    (reset_recommendation_states s).recommended_movie_indices =
      s.recommended_movie_indices :=
  ⟨rfl, rfl, rfl, rfl, rfl, rfl, rfl⟩

/-! ### C8: image lookup with default fallback -/

/-- C8: `get_image_path_or_default` returns an existing file; it returns a
code-named image when one exists (the first in extension order
png, gif, jpg, jpeg), falls back to a `default`-named image only when no
code-named image exists (again first in extension order), and returns `none`
exactly when neither exists. -/
theorem C8_image_path_or_default (ex : String → Bool) (base_dir code : String) :
    (get_image_path_or_default ex base_dir code = none ↔
      ((∀ e ∈ IMAGE_EXTENSIONS, ex (pathJoin base_dir (code ++ "." ++ e)) = false) ∧
       (∀ e ∈ IMAGE_EXTENSIONS, ex (pathJoin base_dir ("default." ++ e)) = false))) ∧
    (∀ p, get_image_path_or_default ex base_dir code = some p → ex p = true) ∧
    (∀ l1 e l2, IMAGE_EXTENSIONS = l1 ++ e :: l2 →
      ex (pathJoin base_dir (code ++ "." ++ e)) = true →
      (∀ e' ∈ l1, ex (pathJoin base_dir (code ++ "." ++ e')) = false) →
      get_image_path_or_default ex base_dir code =
        some (pathJoin base_dir (code ++ "." ++ e))) ∧
    (∀ l1 e l2, IMAGE_EXTENSIONS = l1 ++ e :: l2 →
      (∀ e' ∈ IMAGE_EXTENSIONS, ex (pathJoin base_dir (code ++ "." ++ e')) = false) →
      ex (pathJoin base_dir ("default." ++ e)) = true →
      (∀ e' ∈ l1, ex (pathJoin base_dir ("default." ++ e')) = false) →
      get_image_path_or_default ex base_dir code =
        some (pathJoin base_dir ("default." ++ e))) := by
  have hnone : ∀ (f : String → String),
      ((IMAGE_EXTENSIONS.map f).find? ex = none ↔
        ∀ e ∈ IMAGE_EXTENSIONS, ex (f e) = false) := by
    intro f
    rw [List.find?_eq_none]
    constructor
    · intro h e he
      have := h _ (List.mem_map_of_mem _ he)
      simpa using this
    · intro h x hx
      rcases List.mem_map.mp hx with ⟨e, he, rfl⟩
      simp [h e he]
  have hfirst : ∀ (f : String → String) (l1 : List String) (e : String) (l2 : List String),
      IMAGE_EXTENSIONS = l1 ++ e :: l2 →
      ex (f e) = true →
      (∀ e' ∈ l1, ex (f e') = false) →
      (IMAGE_EXTENSIONS.map f).find? ex = some (f e) := by
    intro f l1 e l2 hsplit hhit hmiss
    rw [hsplit, List.map_append, List.find?_append]
    have h1 : (l1.map f).find? ex = none := by
      rw [List.find?_eq_none]
      intro x hx
      rcases List.mem_map.mp hx with ⟨e', he', rfl⟩
      simp [hmiss e' he']
    rw [h1, List.map_cons, List.find?_cons_of_pos _ hhit]
    rfl
  refine ⟨?_, ?_, ?_, ?_⟩
  · unfold get_image_path_or_default
    constructor
    · intro h
      rcases hA : (IMAGE_EXTENSIONS.map (fun e => pathJoin base_dir (code ++ "." ++ e))).find? ex
        with _ | p
      · rw [hA] at h
        exact ⟨(hnone _).mp hA, (hnone _).mp h⟩
      · rw [hA] at h
        exact absurd h (by simp)
    · intro ⟨h1, h2⟩
      rw [(hnone _).mpr h1]
      exact (hnone _).mpr h2
  · intro p hp
    unfold get_image_path_or_default at hp
    rcases hA : (IMAGE_EXTENSIONS.map (fun e => pathJoin base_dir (code ++ "." ++ e))).find? ex
      with _ | q
    · rw [hA] at hp
      exact List.find?_some hp
    · rw [hA] at hp
      cases hp
      exact List.find?_some hA
  · intro l1 e l2 hsplit hhit hmiss
    unfold get_image_path_or_default
    rw [hfirst (fun e => pathJoin base_dir (code ++ "." ++ e)) l1 e l2 hsplit hhit hmiss]
  · intro l1 e l2 hsplit hall hhit hmiss
    unfold get_image_path_or_default
    rw [(hnone _).mpr hall,
        hfirst (fun e => pathJoin base_dir ("default." ++ e)) l1 e l2 hsplit hhit hmiss]

/-- Witness for C8 at a concrete file system: only `images/default.gif`
exists, and the lookup for code `01` falls back to it. -/
theorem C8_image_path_or_default_witness :
    get_image_path_or_default (fun p => p == "images/default.gif") "images" "01" =
      some "images/default.gif" := by
  have h := (C8_image_path_or_default (fun p => p == "images/default.gif") "images" "01").2.2.2
    ["png"] "gif" ["jpg", "jpeg"] (by decide) (by decide) (by decide) (by decide)
  simpa using h

/-! ### C3: manual corrections resolve before the weather lookup -/

/-- C3: for every input that is a key of `MANUAL_CORRECTIONS`, `process_query`
resolves it through the correction table first and calls `get_weather_data`
with the table's canonical city name (the second component of the returned
pair traces the lookup argument). -/
theorem C3_corrections_resolve_before_lookup (env : Env) (city_input : String)
    (location_names : List String) (all_videos : List Video)
    (movie_poster_urls : List Movie) (recommend_music : Bool)
    (codes : List (String × String)) (s : SessionState) (r rf : Nat)
    (c : String) (h : dictGet MANUAL_CORRECTIONS city_input = some c) :
    (process_query env city_input location_names all_videos movie_poster_urls
      recommend_music codes s r rf).2 = some c := by
  have hne : city_input ≠ "" := by
    intro he
    rw [he] at h
    have hnone : dictGet MANUAL_CORRECTIONS "" = none := by decide
    rw [hnone] at h
    exact Option.noConfusion h
  unfold process_query
  rw [if_neg hne, h]
  dsimp only
  split
  · split <;> split <;> rfl
  · split <;> rfl

/-- Witness for C3: the colloquial "北" resolves to "臺北市" and the weather
lookup is performed with the canonical name. -/
theorem C3_corrections_resolve_before_lookup_witness :
    (process_query envMood "北" [] aV3 aM1 false [] initSession 0 0).2 = some "臺北市" :=
  C3_corrections_resolve_before_lookup envMood "北" [] aV3 aM1 false [] initSession 0 0
    "臺北市" (by decide)

/-! ### The music pool: basic lemmas -/

theorem musicIndexSet_ne_empty (aV : List Video) (hV : aV ≠ []) :
    musicIndexSet aV ≠ ∅ := by
  rcases aV with _ | ⟨v, t⟩
  · exact absurd rfl hV
  · apply Finset.ne_empty_of_mem (a := v.index)
    simp [musicIndexSet]

theorem dedup_map_ne_nil (aV : List Video) (hV : aV ≠ []) :
    (aV.map Video.index).dedup ≠ [] := by
  cases aV with
  | nil => exact absurd rfl hV
  | cons v t =>
    apply List.ne_nil_of_mem (a := v.index)
    rw [List.mem_dedup]
    exact List.mem_map_of_mem _ (List.mem_cons_self _ _)

theorem mem_dedup_map_iff (aV : List Video) (i : Nat) :
    i ∈ (aV.map Video.index).dedup ↔ i ∈ musicIndexSet aV := by
  rw [List.mem_dedup, musicIndexSet, List.mem_toFinset]

theorem gami_exhausted (aV : List Video) (s : SessionState) (hV : aV ≠ [])
    (h : musicIndexSet aV ⊆ s.recommended_music_original_indices) :
    get_available_music_indices aV s =
      ((aV.map Video.index).dedup,
       { s with recommended_music_original_indices := ∅ }) := by
  simp only [get_available_music_indices]
  rw [if_pos]
  constructor
  · rw [List.filter_eq_nil_iff]
    intro i hi
    simp only [decide_eq_true_eq, not_not]
    exact h ((mem_dedup_map_iff aV i).mp hi)
  · exact dedup_map_ne_nil aV hV

theorem gami_avail (aV : List Video) (s : SessionState)
    (h : ¬ musicIndexSet aV ⊆ s.recommended_music_original_indices) :
    get_available_music_indices aV s =
      ((aV.map Video.index).dedup.filter
        (fun i => decide (i ∉ s.recommended_music_original_indices)), s) := by
  simp only [get_available_music_indices]
  rw [if_neg]
  intro ⟨h1, _⟩
  apply h
  intro i hiA
  have hi := (mem_dedup_map_iff aV i).mpr hiA
  have hni := (List.filter_eq_nil_iff.mp h1) i hi
  simp only [decide_eq_true_eq, not_not] at hni
  exact hni

theorem avail_video_mem (aV : List Video) (s : SessionState) (v : Video)
    (hv : v ∈ availableVideosAt aV s) :
    v ∈ aV ∧ v.index ∈ (get_available_music_indices aV s).1 := by
  have h := List.mem_filter.mp hv
  exact ⟨h.1, of_decide_eq_true h.2⟩

theorem availableVideosAt_eq (aV : List Video) (s : SessionState) :
    aV.filter (fun v => decide (v.index ∈ (get_available_music_indices aV s).1)) =
      availableVideosAt aV s := rfl

theorem availAt_ne_nil (aV : List Video) (s : SessionState) (hV : aV ≠ []) :
    availableVideosAt aV s ≠ [] := by
  by_cases h : musicIndexSet aV ⊆ s.recommended_music_original_indices
  · cases aV with
    | nil => exact absurd rfl hV
    | cons v t =>
      apply List.ne_nil_of_mem (a := v)
      apply List.mem_filter.mpr
      refine ⟨List.mem_cons_self _ _, decide_eq_true ?_⟩
      rw [gami_exhausted (v :: t) s hV h]
      exact (mem_dedup_map_iff _ _).mpr (by simp [musicIndexSet])
  · have hex : ∃ i ∈ musicIndexSet aV, i ∉ s.recommended_music_original_indices := by
      by_contra hc
      push_neg at hc
      exact h fun {i} hi => hc i hi
    rcases hex with ⟨x, hxA, hxR⟩
    rcases List.mem_map.mp (List.mem_toFinset.mp hxA) with ⟨v, hvmem, hvx⟩
    apply List.ne_nil_of_mem (a := v)
    apply List.mem_filter.mpr
    refine ⟨hvmem, decide_eq_true ?_⟩
    rw [gami_avail aV s h]
    show v.index ∈ _
    apply List.mem_filter.mpr
    refine ⟨(mem_dedup_map_iff aV _).mpr ?_, decide_eq_true ?_⟩
    · rw [hvx]
      exact hxA
    · rw [hvx]
      exact hxR

theorem avail_index_spec (aV : List Video) (s : SessionState) (hV : aV ≠ []) (v : Video)
    (hv : v ∈ availableVideosAt aV s) :
    v.index ∈ musicIndexSet aV ∧
    v.index ∉ (if musicIndexSet aV ⊆ s.recommended_music_original_indices
               then (∅ : Finset Nat) else s.recommended_music_original_indices) ∧
    (get_available_music_indices aV s).2.recommended_music_original_indices =
      (if musicIndexSet aV ⊆ s.recommended_music_original_indices
       then (∅ : Finset Nat) else s.recommended_music_original_indices) ∧
    (get_available_music_indices aV s).2.recommended_movie_indices =
      s.recommended_movie_indices := by
  obtain ⟨hmem, hidx⟩ := avail_video_mem aV s v hv
  by_cases h : musicIndexSet aV ⊆ s.recommended_music_original_indices
  · rw [gami_exhausted aV s hV h] at hidx
    refine ⟨(mem_dedup_map_iff aV _).mp hidx, ?_, ?_, ?_⟩
    · rw [if_pos h]
      simp
    · rw [gami_exhausted aV s hV h, if_pos h]
    · rw [gami_exhausted aV s hV h]
  · rw [gami_avail aV s h] at hidx
    have hm := List.mem_filter.mp hidx
    refine ⟨(mem_dedup_map_iff aV _).mp hm.1, ?_, ?_, ?_⟩
    · rw [if_neg h]
      exact of_decide_eq_true hm.2
    · rw [gami_avail aV s h, if_neg h]
    · rw [gami_avail aV s h]

/-! ### Step specifications of the recommendation functions -/

theorem rmr_state_spec (aV : List Video) (s : SessionState) (r : Nat) (hV : aV ≠ []) :
    musicStepSpec aV s (random_music_recommendation aV s r).2 ∧
    (random_music_recommendation aV s r).2.recommended_movie_indices =
      s.recommended_movie_indices := by
  have hne := availAt_ne_nil aV s hV
  have hv := choice_mem _ r hne
  obtain ⟨h1, h2, h3, h4⟩ := avail_index_spec aV s hV _ hv
  have hrw : random_music_recommendation aV s r =
      (musicReturn "已為您隨機推薦歌曲：" "無法從連結中提取影片ID。請重新點選。"
         (choice (availableVideosAt aV s) r),
       { (get_available_music_indices aV s).2 with
         recommended_music_original_indices :=
           (insert (choice (availableVideosAt aV s) r).index
             (get_available_music_indices aV s).2.recommended_music_original_indices) }) := by
    simp only [random_music_recommendation, availableVideosAt_eq, if_neg hV, if_neg hne]
  constructor
  · refine ⟨(choice (availableVideosAt aV s) r).index, h1, ?_, h2⟩
    rw [hrw]
    dsimp only
    rw [h3]
  · rw [hrw]
    dsimp only
    exact h4

/-! ### Folding max, and the selection lemmas of find_and_recommend_music -/

theorem foldl_max_mem {α : Type} [LinearOrder α] (l : List α) (a : α) :
    l.foldl max a = a ∨ l.foldl max a ∈ l := by
  induction l generalizing a with
  | nil => exact Or.inl rfl
  | cons x xs ih =>
    rcases ih (max a x) with h | h
    · rcases max_choice a x with hm | hm
      · exact Or.inl (by rw [List.foldl_cons, h, hm])
      · refine Or.inr ?_
        rw [List.foldl_cons, h, hm]
        exact List.mem_cons_self _ _
    · exact Or.inr (List.mem_cons_of_mem _ h)

theorem le_foldl_max {α : Type} [LinearOrder α] (l : List α) (a : α) :
    a ≤ l.foldl max a ∧ ∀ y ∈ l, y ≤ l.foldl max a := by
  induction l generalizing a with
  | nil =>
    refine ⟨le_refl _, ?_⟩
    intro y hy
    cases hy
  | cons x xs ih =>
    obtain ⟨h1, h2⟩ := ih (max a x)
    refine ⟨le_trans (le_max_left a x) h1, ?_⟩
    intro y hy
    rcases List.mem_cons.mp hy with rfl | hy'
    · exact le_trans (le_max_right a y) h1
    · exact h2 y hy'

theorem matchedAt_eq (pr : String → String → Nat) (d : String) (aV : List Video)
    (s : SessionState) :
    ((availableVideosAt aV s).map
        (fun v => (v, (pr (pyLower d) (pyLower v.desc) : Int)))).filter
      (fun q => decide (30 ≤ q.2)) = matchedAt pr d aV s := rfl

theorem bestAt_eq (pr : String → String → Nat) (d : String) (aV : List Video)
    (s : SessionState) :
    (matchedAt pr d aV s).foldl (fun b q => max b q.2) (-1) = bestAt pr d aV s := rfl

theorem codeTopAt_eq (pr : String → String → Nat) (d : String) (aV : List Video)
    (s : SessionState) :
    ((matchedAt pr d aV s).filter
      (fun q => decide (q.2 = bestAt pr d aV s))).map Prod.fst = codeTopAt pr d aV s := rfl

theorem selectedOf_eq (pr : String → String → Nat) (d : String) (aV : List Video)
    (s : SessionState) (r : Nat) :
    choice (codeTopAt pr d aV s) r = selectedOf pr d aV s r := rfl

theorem find_eq_fallback (pr : String → String → Nat) (aV : List Video) (d : String)
    (s : SessionState) (r rf : Nat) (hV : aV ≠ [])
    (hm : matchedAt pr d aV s = []) :
    find_and_recommend_music pr aV d s r rf =
      random_music_recommendation aV (get_available_music_indices aV s).2 rf := by
  have hne := availAt_ne_nil aV s hV
  simp only [find_and_recommend_music, availableVideosAt_eq, if_neg hV, if_neg hne,
    matchedAt_eq, if_pos hm]

theorem find_eq_matched (pr : String → String → Nat) (aV : List Video) (d : String)
    (s : SessionState) (r rf : Nat) (hV : aV ≠ [])
    (hm : matchedAt pr d aV s ≠ []) :
    find_and_recommend_music pr aV d s r rf =
      (musicReturn "這樣的天氣來聽這首療癒一下吧！"
         "這樣的天氣來聽這首療癒一下吧！\n(抱歉，無法從連結中提取影片ID。)"
         (selectedOf pr d aV s r),
       { (get_available_music_indices aV s).2 with
         recommended_music_original_indices :=
           (insert (selectedOf pr d aV s r).index
             (get_available_music_indices aV s).2.recommended_music_original_indices) }) := by
  have hne := availAt_ne_nil aV s hV
  simp only [find_and_recommend_music, availableVideosAt_eq, if_neg hV, if_neg hne,
    matchedAt_eq, if_neg hm, bestAt_eq, codeTopAt_eq, selectedOf_eq]

theorem codeTop_mem_matched (pr : String → String → Nat) (d : String) (aV : List Video)
    (s : SessionState) {v : Video} (hv : v ∈ codeTopAt pr d aV s) :
    ∃ q ∈ matchedAt pr d aV s, q.1 = v ∧ q.2 = bestAt pr d aV s := by
  rcases List.mem_map.mp hv with ⟨q, hq, hqv⟩
  have h := List.mem_filter.mp hq
  exact ⟨q, h.1, hqv, of_decide_eq_true h.2⟩

theorem matched_mem_avail (pr : String → String → Nat) (d : String) (aV : List Video)
    (s : SessionState) {q : Video × Int} (hq : q ∈ matchedAt pr d aV s) :
    q.1 ∈ availableVideosAt aV s ∧ q.2 = (scoreOf pr d q.1 : Int) ∧ (30 : Int) ≤ q.2 := by
  have h := List.mem_filter.mp hq
  have h30 : (30 : Int) ≤ q.2 := of_decide_eq_true h.2
  rcases List.mem_map.mp h.1 with ⟨w, hw, hwq⟩
  cases hwq
  exact ⟨hw, rfl, h30⟩

theorem codeTop_ne_nil (pr : String → String → Nat) (d : String) (aV : List Video)
    (s : SessionState) (hm : matchedAt pr d aV s ≠ []) :
    codeTopAt pr d aV s ≠ [] := by
  have hfold : bestAt pr d aV s = ((matchedAt pr d aV s).map Prod.snd).foldl max (-1) := by
    rw [List.foldl_map]
    rfl
  rcases foldl_max_mem ((matchedAt pr d aV s).map Prod.snd) (-1) with h | h
  · exfalso
    rcases List.exists_mem_of_ne_nil _ hm with ⟨q, hq⟩
    have h30 : (30 : Int) ≤ q.2 := of_decide_eq_true (List.mem_filter.mp hq).2
    have hle := (le_foldl_max ((matchedAt pr d aV s).map Prod.snd) (-1)).2 _
      (List.mem_map_of_mem _ hq)
    rw [h] at hle
    omega
  · rw [← hfold] at h
    rcases List.mem_map.mp h with ⟨q, hq, hqb⟩
    apply List.ne_nil_of_mem (a := q.1)
    apply List.mem_map_of_mem
    exact List.mem_filter.mpr ⟨hq, decide_eq_true hqb⟩

theorem selectedOf_mem_avail (pr : String → String → Nat) (d : String) (aV : List Video)
    (s : SessionState) (r : Nat) (hm : matchedAt pr d aV s ≠ []) :
    selectedOf pr d aV s r ∈ availableVideosAt aV s := by
  have hvtop := choice_mem _ r (codeTop_ne_nil pr d aV s hm)
  rw [selectedOf_eq] at hvtop
  rcases codeTop_mem_matched pr d aV s hvtop with ⟨q, hq, hq1, _⟩
  have hqa := (matched_mem_avail pr d aV s hq).1
  rw [hq1] at hqa
  exact hqa

theorem farm_state_spec (pr : String → String → Nat) (aV : List Video) (d : String)
    (s : SessionState) (r rf : Nat) (hV : aV ≠ []) :
    musicStepSpec aV s (find_and_recommend_music pr aV d s r rf).2 ∧
    (find_and_recommend_music pr aV d s r rf).2.recommended_movie_indices =
      s.recommended_movie_indices := by
  by_cases hm : matchedAt pr d aV s = []
  · rw [find_eq_fallback pr aV d s r rf hV hm]
    by_cases h : musicIndexSet aV ⊆ s.recommended_music_original_indices
    · rw [gami_exhausted aV s hV h]
      dsimp only
      obtain ⟨⟨i, hiA, hins, _⟩, hmov⟩ :=
        rmr_state_spec aV { s with recommended_music_original_indices := ∅ } rf hV
      have hnotsub : ¬ musicIndexSet aV ⊆
          ({ s with recommended_music_original_indices :=
              (∅ : Finset Nat) } : SessionState).recommended_music_original_indices := by
        intro hsub
        exact musicIndexSet_ne_empty aV hV (Finset.subset_empty.mp hsub)
      rw [if_neg hnotsub] at hins
      constructor
      · refine ⟨i, hiA, ?_, ?_⟩
        · rw [if_pos h]
          exact hins
        · rw [if_pos h]
          simp
      · exact hmov
    · rw [gami_avail aV s h]
      dsimp only
      exact rmr_state_spec aV s rf hV
  · rw [find_eq_matched pr aV d s r rf hV hm]
    obtain ⟨h1, h2, h3, h4⟩ := avail_index_spec aV s hV _ (selectedOf_mem_avail pr d aV s r hm)
    constructor
    · refine ⟨(selectedOf pr d aV s r).index, h1, ?_, h2⟩
      dsimp only
      rw [h3]
    · dsimp only
      exact h4

/-! ### The movie step -/

theorem rmov_state_spec (aM : List Movie) (s : SessionState) (r : Nat) (hM : aM ≠ []) :
    movieStepSpec aM s (random_movie_recommendation aM s r).2 ∧
    (random_movie_recommendation aM s r).2.recommended_music_original_indices =
      s.recommended_music_original_indices := by
  have hrange : List.range aM.length ≠ [] := by
    intro he
    exact hM (List.length_eq_zero.mp (List.range_eq_nil.mp he))
  by_cases hav : (List.range aM.length).filter
      (fun i => decide (i ∉ s.recommended_movie_indices)) = []
  · have hsub : Finset.range aM.length ⊆ s.recommended_movie_indices := by
      intro i hi
      have hi' : i ∈ List.range aM.length := List.mem_range.mpr (Finset.mem_range.mp hi)
      have hni := List.filter_eq_nil_iff.mp hav i hi'
      simp only [decide_eq_true_eq, not_not] at hni
      exact hni
    have hmem : choice (List.range aM.length) r ∈ Finset.range aM.length :=
      Finset.mem_range.mpr (List.mem_range.mp (choice_mem _ r hrange))
    have hrw : (random_movie_recommendation aM s r).2 =
        { s with recommended_movie_indices :=
            (insert (choice (List.range aM.length) r) ∅) } := by
      simp only [random_movie_recommendation, if_neg hM, if_pos hav]
    rw [hrw]
    constructor
    · refine ⟨_, hmem, ?_, ?_⟩
      · rw [if_pos hsub]
      · rw [if_pos hsub]
        simp
    · rfl
  · have hm := List.mem_filter.mp (choice_mem _ r hav)
    have hmem1 : choice ((List.range aM.length).filter
        (fun i => decide (i ∉ s.recommended_movie_indices))) r ∈ Finset.range aM.length :=
      Finset.mem_range.mpr (List.mem_range.mp hm.1)
    have hmem2 := of_decide_eq_true hm.2
    have hnsub : ¬ Finset.range aM.length ⊆ s.recommended_movie_indices := by
      intro hsub
      exact hmem2 (hsub hmem1)
    have hrw : (random_movie_recommendation aM s r).2 =
        { s with recommended_movie_indices :=
            (insert (choice ((List.range aM.length).filter
                (fun i => decide (i ∉ s.recommended_movie_indices))) r)
              s.recommended_movie_indices) } := by
      simp only [random_movie_recommendation, if_neg hM, if_neg hav]
    rw [hrw]
    constructor
    · refine ⟨_, hmem1, ?_, ?_⟩
      · rw [if_neg hnsub]
      · rw [if_neg hnsub]
        exact hmem2
    · rfl

/-! ### C1: the no-repeat invariant of the recommendation pools -/

/-- C1: over a fixed non-empty catalogue, along every sequence of
recommendation operations (`find_and_recommend_music`,
`random_music_recommendation`, `random_movie_recommendation`) started from
the initial session state, each next operation selects an entry whose index
is not yet in the corresponding recommended set, unless that set already
contains every index of the pool, in which case the set is reset to empty
(the full pool becomes available) and the selected index starts the new
set.  The selected index is always added to the set. -/
theorem C1_no_repeat_until_exhaustion (pr : String → String → Nat)
    (aV : List Video) (aM : List Movie) (hV : aV ≠ []) (hM : aM ≠ [])
    (ops : List RecOp) (op : RecOp) :
    (∀ d r rf, op = RecOp.findMusic d r rf →
      musicStepSpec aV (recRun pr aV aM ops initSession)
        (recStep pr aV aM op (recRun pr aV aM ops initSession))) ∧
    (∀ r, op = RecOp.randMusic r →
      musicStepSpec aV (recRun pr aV aM ops initSession)
        (recStep pr aV aM op (recRun pr aV aM ops initSession))) ∧
    (∀ r, op = RecOp.randMovie r →
      movieStepSpec aM (recRun pr aV aM ops initSession)
        (recStep pr aV aM op (recRun pr aV aM ops initSession))) := by
  refine ⟨?_, ?_, ?_⟩
  · rintro d r rf rfl
    exact (farm_state_spec pr aV d (recRun pr aV aM ops initSession) r rf hV).1
  · rintro r rfl
    exact (rmr_state_spec aV (recRun pr aV aM ops initSession) r hV).1
  · rintro r rfl
    exact (rmov_state_spec aM (recRun pr aV aM ops initSession) r hM).1

/-- Witness for C1 at a concrete catalogue and a concrete operation
sequence. -/
theorem C1_no_repeat_until_exhaustion_witness :
    musicStepSpec aV3 (recRun prConst50 aV3 aM1 [RecOp.randMovie 0] initSession)
      (recStep prConst50 aV3 aM1 (RecOp.randMusic 1)
        (recRun prConst50 aV3 aM1 [RecOp.randMovie 0] initSession)) :=
  (C1_no_repeat_until_exhaustion prConst50 aV3 aM1 (by decide) (by decide)
    [RecOp.randMovie 0] (RecOp.randMusic 1)).2.1 1 rfl

/-! ### The maximal score and the top-score set -/

theorem foldr_max_mem {α : Type} [LinearOrder α] (l : List α) (a : α) :
    l.foldr max a = a ∨ l.foldr max a ∈ l := by
  induction l with
  | nil => exact Or.inl rfl
  | cons x xs ih =>
    rw [List.foldr_cons]
    rcases max_choice x (xs.foldr max a) with hm | hm
    · rw [hm]
      exact Or.inr (List.mem_cons_self _ _)
    · rw [hm]
      rcases ih with h | h
      · exact Or.inl h
      · exact Or.inr (List.mem_cons_of_mem _ h)

theorem le_foldr_max {α : Type} [LinearOrder α] (l : List α) (a : α) :
    a ≤ l.foldr max a ∧ ∀ y ∈ l, y ≤ l.foldr max a := by
  induction l with
  | nil =>
    refine ⟨le_refl _, ?_⟩
    intro y hy
    cases hy
  | cons x xs ih =>
    obtain ⟨h1, h2⟩ := ih
    refine ⟨le_trans h1 (le_max_right x _), ?_⟩
    intro y hy
    rcases List.mem_cons.mp hy with rfl | hy'
    · exact le_max_left _ _
    · exact le_trans (h2 y hy') (le_max_right x _)

theorem maxScoreAt_eq (pr : String → String → Nat) (d : String) (aV : List Video)
    (s : SessionState) :
    ((availableVideosAt aV s).map (scoreOf pr d)).foldr max 0 = maxScoreAt pr d aV s := rfl

theorem maxScore_attained (pr : String → String → Nat) (d : String) (aV : List Video)
    (s : SessionState) (h30 : 30 ≤ maxScoreAt pr d aV s) :
    ∃ v ∈ availableVideosAt aV s, scoreOf pr d v = maxScoreAt pr d aV s := by
  rcases foldr_max_mem ((availableVideosAt aV s).map (scoreOf pr d)) 0 with h | h
  · exfalso
    rw [← maxScoreAt_eq pr d aV s, h] at h30
    omega
  · rcases List.mem_map.mp h with ⟨v, hv, hsc⟩
    rw [maxScoreAt_eq] at hsc
    exact ⟨v, hv, hsc⟩

theorem matched_of_max (pr : String → String → Nat) (d : String) (aV : List Video)
    (s : SessionState) (h30 : 30 ≤ maxScoreAt pr d aV s) :
    ∃ q ∈ matchedAt pr d aV s, q.2 = (maxScoreAt pr d aV s : Int) := by
  rcases maxScore_attained pr d aV s h30 with ⟨v, hv, hsc⟩
  refine ⟨(v, (pr (pyLower d) (pyLower v.desc) : Int)), ?_, ?_⟩
  · apply List.mem_filter.mpr
    refine ⟨List.mem_map_of_mem _ hv, decide_eq_true ?_⟩
    show (30 : Int) ≤ (scoreOf pr d v : Int)
    rw [hsc]
    exact_mod_cast h30
  · show ((scoreOf pr d v : Nat) : Int) = _
    rw [hsc]

theorem matchedAt_ne_nil_of_max (pr : String → String → Nat) (d : String)
    (aV : List Video) (s : SessionState) (h30 : 30 ≤ maxScoreAt pr d aV s) :
    matchedAt pr d aV s ≠ [] := by
  rcases matched_of_max pr d aV s h30 with ⟨q, hq, _⟩
  exact List.ne_nil_of_mem hq

theorem bestAt_eq_max (pr : String → String → Nat) (d : String) (aV : List Video)
    (s : SessionState) (h30 : 30 ≤ maxScoreAt pr d aV s) :
    bestAt pr d aV s = (maxScoreAt pr d aV s : Int) := by
  have hfold : bestAt pr d aV s = ((matchedAt pr d aV s).map Prod.snd).foldl max (-1) := by
    rw [List.foldl_map]
    rfl
  rcases matched_of_max pr d aV s h30 with ⟨q0, hq0, hq0v⟩
  have hle1 : (maxScoreAt pr d aV s : Int) ≤ bestAt pr d aV s := by
    rw [hfold]
    have hle := (le_foldl_max ((matchedAt pr d aV s).map Prod.snd) (-1)).2 _
      (List.mem_map_of_mem _ hq0)
    rw [hq0v] at hle
    exact hle
  have hle2 : bestAt pr d aV s ≤ (maxScoreAt pr d aV s : Int) := by
    rcases foldl_max_mem ((matchedAt pr d aV s).map Prod.snd) (-1) with h | h
    · rw [hfold, h]
      omega
    · rcases List.mem_map.mp h with ⟨q, hq, hqe⟩
      have hv := matched_mem_avail pr d aV s hq
      have hsle : scoreOf pr d q.1 ≤ maxScoreAt pr d aV s := by
        have hle := (le_foldr_max ((availableVideosAt aV s).map (scoreOf pr d)) 0).2 _
          (List.mem_map_of_mem _ hv.1)
        rw [maxScoreAt_eq] at hle
        exact hle
      rw [hfold, ← hqe, hv.2.1]
      exact_mod_cast hsle
  exact le_antisymm hle2 hle1

theorem filter_map_pair {β : Type} (l : List Video) (g : Video → β)
    (p : Video × β → Bool) :
    (l.map (fun v => (v, g v))).filter p =
      (l.filter (fun v => p (v, g v))).map (fun v => (v, g v)) := by
  induction l with
  | nil => rfl
  | cons x xs ih =>
    simp only [List.map_cons, List.filter_cons]
    by_cases hp : p (x, g x) = true
    · rw [if_pos hp, if_pos hp, List.map_cons, ih]
    · rw [if_neg hp, if_neg hp, ih]

theorem codeTop_eq_top (pr : String → String → Nat) (d : String) (aV : List Video)
    (s : SessionState) (h30 : 30 ≤ maxScoreAt pr d aV s) :
    codeTopAt pr d aV s = topAt pr d aV s := by
  have hbest := bestAt_eq_max pr d aV s h30
  have h1 : matchedAt pr d aV s =
      ((availableVideosAt aV s).filter
        (fun v => decide ((30 : Int) ≤ (pr (pyLower d) (pyLower v.desc) : Int)))).map
        (fun v => (v, (pr (pyLower d) (pyLower v.desc) : Int))) := by
    rw [← matchedAt_eq pr d aV s, filter_map_pair]
  have h2 : codeTopAt pr d aV s =
      (((availableVideosAt aV s).filter
          (fun v => decide ((30 : Int) ≤ (pr (pyLower d) (pyLower v.desc) : Int)))).filter
        (fun v => decide ((pr (pyLower d) (pyLower v.desc) : Int) = bestAt pr d aV s))) := by
    rw [← codeTopAt_eq pr d aV s, h1, filter_map_pair, List.map_map]
    have hid : (Prod.fst ∘ fun v : Video =>
        (v, (pr (pyLower d) (pyLower v.desc) : Int))) = id := rfl
    rw [hid, List.map_id]
  rw [h2, List.filter_filter]
  simp only [topAt]
  apply List.filter_congr
  intro v hv
  rw [hbest, ← Bool.decide_and]
  apply decide_eq_decide.mpr
  constructor
  · rintro ⟨he, _⟩
    exact_mod_cast he
  · intro hs
    constructor
    · exact_mod_cast hs
    · show (30 : Int) ≤ (scoreOf pr d v : Int)
      rw [hs]
      exact_mod_cast h30

/-! ### C2: tie-breaking among equal top scores -/

/-- C2 (amended): when the maximal fuzzy score over the available videos
reaches the threshold 30, the candidate list handed to `random.choice` is
exactly the set of available videos attaining the maximal score (no other
video can be selected, and every top-score video is a candidate), the
selected video is in that set, and `find_and_recommend_music` returns the
selected video's extracted id and records its index.  Without the threshold
the function instead falls back to a uniform random recommendation, see the
counterexample and C10. -/
theorem C2_tie_break_among_top_scores (pr : String → String → Nat) (d : String)
    (aV : List Video) (s : SessionState) (r rf : Nat) (hV : aV ≠ [])
    (h30 : 30 ≤ maxScoreAt pr d aV s) :
    codeTopAt pr d aV s = topAt pr d aV s ∧
    selectedOf pr d aV s r ∈ topAt pr d aV s ∧
    find_and_recommend_music pr aV d s r rf =
      (musicReturn "這樣的天氣來聽這首療癒一下吧！"
         "這樣的天氣來聽這首療癒一下吧！\n(抱歉，無法從連結中提取影片ID。)"
         (selectedOf pr d aV s r),
       { (get_available_music_indices aV s).2 with
         recommended_music_original_indices :=
           (insert (selectedOf pr d aV s r).index
             (get_available_music_indices aV s).2.recommended_music_original_indices) }) := by
  have hm := matchedAt_ne_nil_of_max pr d aV s h30
  have htop := codeTop_eq_top pr d aV s h30
  refine ⟨htop, ?_, find_eq_matched pr aV d s r rf hV hm⟩
  rw [← htop, ← selectedOf_eq]
  exact choice_mem _ r (codeTop_ne_nil pr d aV s hm)

/-- Witness for C2: three available videos all score 50, so all three tie at
the maximum and the selected video is one of them. -/
theorem C2_tie_break_among_top_scores_witness :
    selectedOf prConst50 "晴" aV3 initSession 2 ∈ topAt prConst50 "晴" aV3 initSession :=
  (C2_tie_break_among_top_scores prConst50 "晴" aV3 initSession 2 0 (by decide)
    (by decide)).2.1

/-- Counterexample for C2 as frozen: two available videos tie at the maximal
fuzzy score (10), yet with every score below the threshold 30 the function
falls back to a uniform random pick over ALL available videos and here
selects the third video, which is outside the top-score set. -/
theorem C2_tie_break_counterexample :
    2 ≤ (topAt prTie10 "d" aV3 initSession).length ∧
    vidC ∉ topAt prTie10 "d" aV3 initSession ∧
    (find_and_recommend_music prTie10 aV3 "d" initSession 0 2).1.2 =
      some "ccccccccccc" ∧
    (∀ v ∈ topAt prTie10 "d" aV3 initSession,
      extract_youtube_id v.url ≠ some "ccccccccccc") := by
  refine ⟨by decide, by decide, ?_, by decide⟩
  decide

/-! ### C10: the 30-point threshold and the random fallback -/

/-- C10: a video is eligible for weather-matched selection only with a
partial-ratio score of at least 30 (every entry of the matched candidate
list scores at least 30), and when no available video reaches the threshold
`find_and_recommend_music` degrades to the uniform random recommendation
(over the same no-repeat pool) instead of returning no result. -/
theorem C10_threshold_and_fallback (pr : String → String → Nat) (d : String)
    (aV : List Video) (s : SessionState) (r rf : Nat) (hV : aV ≠ []) :
    (∀ q ∈ matchedAt pr d aV s, (30 : Int) ≤ q.2) ∧
    ((∀ v ∈ availableVideosAt aV s, scoreOf pr d v < 30) →
      find_and_recommend_music pr aV d s r rf =
        random_music_recommendation aV (get_available_music_indices aV s).2 rf) := by
  constructor
  · intro q hq
    exact (matched_mem_avail pr d aV s hq).2.2
  · intro hlow
    apply find_eq_fallback pr aV d s r rf hV
    rw [← matchedAt_eq pr d aV s, List.filter_eq_nil_iff]
    intro q hq
    rcases List.mem_map.mp hq with ⟨v, hv, hvq⟩
    cases hvq
    simp only [decide_eq_true_eq]
    intro hge
    have hlt := hlow v hv
    have hlt2 : ((pr (pyLower d) (pyLower v.desc) : Nat) : Int) < 30 := by
      exact_mod_cast hlt
    omega

/-- Witness for C10: with an all-zero score the function returns exactly the
random recommendation. -/
theorem C10_threshold_and_fallback_witness :
    find_and_recommend_music prConst0 aV3 "雨" initSession 0 1 =
      random_music_recommendation aV3 (get_available_music_indices aV3 initSession).2 1 :=
  (C10_threshold_and_fallback prConst0 "雨" aV3 initSession 0 1 (by decide)).2
    (fun v _ => (by decide : (0 : Nat) < 30))

/-! ### Regex-1 scanning lemmas for extract_youtube_id -/

theorem isPrefixOf_append_self (m l : List Char) : m.isPrefixOf (m ++ l) = true := by
  induction m with
  | nil => simp [List.isPrefixOf]
  | cons c cs ih => simp [List.isPrefixOf, ih]

theorem isPrefixOf_append_of_mismatch (m p l : List Char)
    (h1 : m.isPrefixOf p = false) (h2 : p.isPrefixOf m = false) :
    m.isPrefixOf (p ++ l) = false := by
  induction m generalizing p with
  | nil => simp [List.isPrefixOf] at h1
  | cons c cs ih =>
    cases p with
    | nil => simp [List.isPrefixOf] at h2
    | cons b bs =>
      simp only [List.cons_append, List.isPrefixOf] at h1 h2 ⊢
      by_cases hcb : (c == b) = true
      · have hbc : (b == c) = true := by
          rw [beq_iff_eq] at hcb ⊢
          exact hcb.symm
        rw [hcb] at h1
        rw [hbc] at h2
        simp only [Bool.true_and] at h1 h2
        rw [hcb, Bool.true_and]
        exact ih bs h1 h2
      · have hcb' : (c == b) = false := by
          rwa [Bool.not_eq_true] at hcb
        simp [hcb']

theorem takeExact_full (n : Nat) (id : List Char) (hlen : id.length = n)
    (hchars : ∀ c ∈ id, ytChar c = true) : takeExact n id = some id := by
  induction id generalizing n with
  | nil =>
    rw [← hlen]
    rfl
  | cons c cs ih =>
    cases n with
    | zero => simp at hlen
    | succ k =>
      simp only [takeExact]
      rw [if_pos (hchars c (List.mem_cons_self _ _))]
      rw [ih k (by simpa using hlen) (fun c' hc' => hchars c' (List.mem_cons_of_mem _ hc'))]
      rfl

theorem tryMarker_self (m t : List Char) : tryMarker m (m ++ t) = takeExact 11 t := by
  unfold tryMarker
  rw [if_pos (isPrefixOf_append_self m t), List.drop_left]

theorem tryMarker_miss (m p l : List Char) (h1 : m.isPrefixOf p = false)
    (h2 : p.isPrefixOf m = false) : tryMarker m (p ++ l) = none := by
  unfold tryMarker
  rw [isPrefixOf_append_of_mismatch m p l h1 h2]
  simp

theorem tryAt_vEq (t id : List Char) (ht : takeExact 11 t = some id) :
    tryAt ("v=".data ++ t) = some id := by
  simp only [tryAt, tryMarker_self, ht, Option.orElse]

theorem tryAt_ytbe (t id : List Char) (ht : takeExact 11 t = some id) :
    tryAt ("youtu.be/".data ++ t) = some id := by
  simp only [tryAt, tryMarker_miss "v=".data "youtu.be/".data t (by decide) (by decide),
    tryMarker_self, ht, Option.orElse]

theorem tryAt_embed (t id : List Char) (ht : takeExact 11 t = some id) :
    tryAt ("embed/".data ++ t) = some id := by
  simp only [tryAt, tryMarker_miss "v=".data "embed/".data t (by decide) (by decide),
    tryMarker_miss "youtu.be/".data "embed/".data t (by decide) (by decide),
    tryMarker_self, ht, Option.orElse]

theorem tryAt_live (t id : List Char) (ht : takeExact 11 t = some id) :
    tryAt ("live/".data ++ t) = some id := by
  simp only [tryAt, tryMarker_miss "v=".data "live/".data t (by decide) (by decide),
    tryMarker_miss "youtu.be/".data "live/".data t (by decide) (by decide),
    tryMarker_miss "embed/".data "live/".data t (by decide) (by decide),
    tryMarker_self, ht, Option.orElse]

theorem tryAt_append_none_of_clean (p l : List Char)
    (h1 : "v=".data.isPrefixOf p = false) (h2 : p.isPrefixOf "v=".data = false)
    (h3 : "youtu.be/".data.isPrefixOf p = false) (h4 : p.isPrefixOf "youtu.be/".data = false)
    (h5 : "embed/".data.isPrefixOf p = false) (h6 : p.isPrefixOf "embed/".data = false)
    (h7 : "live/".data.isPrefixOf p = false) (h8 : p.isPrefixOf "live/".data = false) :
    tryAt (p ++ l) = none := by
  simp only [tryAt, tryMarker_miss _ _ _ h1 h2, tryMarker_miss _ _ _ h3 h4,
    tryMarker_miss _ _ _ h5 h6, tryMarker_miss _ _ _ h7 h8, Option.orElse]

theorem regex1_skip (pre l : List Char)
    (h : ∀ p, p ∈ pre.tails → p ≠ [] → tryAt (p ++ l) = none) :
    regex1 (pre ++ l) = regex1 l := by
  induction pre with
  | nil => rfl
  | cons c cs ih =>
    have h0 := h (c :: cs) ((List.mem_tails _ _).mpr (List.suffix_refl _))
      (List.cons_ne_nil _ _)
    rw [List.cons_append] at h0
    rw [List.cons_append, regex1, h0]
    show regex1 (cs ++ l) = regex1 l
    exact ih (fun p hp hne =>
      h p ((List.mem_tails _ _).mpr
        (((List.mem_tails _ _).mp hp).trans (List.suffix_cons c cs))) hne)

theorem cleanTails (pre l : List Char)
    (h : ∀ p ∈ pre.tails, p ≠ [] →
      ("v=".data.isPrefixOf p = false ∧ p.isPrefixOf "v=".data = false ∧
       "youtu.be/".data.isPrefixOf p = false ∧ p.isPrefixOf "youtu.be/".data = false ∧
       "embed/".data.isPrefixOf p = false ∧ p.isPrefixOf "embed/".data = false ∧
       "live/".data.isPrefixOf p = false ∧ p.isPrefixOf "live/".data = false)) :
    regex1 (pre ++ l) = regex1 l :=
  regex1_skip pre l (fun p hp hne => by
    obtain ⟨a1, a2, a3, a4, a5, a6, a7, a8⟩ := h p hp hne
    exact tryAt_append_none_of_clean p l a1 a2 a3 a4 a5 a6 a7 a8)

theorem regex1_hit (x g : List Char) (hx : tryAt x = some g) : regex1 x = some g := by
  cases x with
  | nil =>
    have hnil : tryAt ([] : List Char) = none := rfl
    rw [hnil] at hx
    exact Option.noConfusion hx
  | cons c cs =>
    rw [regex1, hx]
    rfl

/-! ### C4: id extraction across the supported URL shapes -/

/-- C4 (amended): extraction is a pure function, so repeated extraction of
the same URL trivially agrees; for each of the four marker shapes
(`watch?v=`, `youtu.be/`, `embed/`, `live/`) a URL carrying an 11-character
id from the allowed class yields exactly that id, the same across all four
shapes and of length 11.  The googleusercontent shape is excluded: its
greedy digit prefix can swallow the leading digit of an id and produce a
result of a different length (see the counterexample). -/
theorem C4_same_id_across_shapes (id : String) (hlen : id.length = 11)
    (hchars : ∀ c ∈ id.data, ytChar c = true) :
    extract_youtube_id ("https://www.youtube.com/watch?v=" ++ id) = some id ∧
    extract_youtube_id ("https://youtu.be/" ++ id) = some id ∧
    extract_youtube_id ("https://www.youtube.com/embed/" ++ id) = some id ∧
    extract_youtube_id ("https://www.youtube.com/live/" ++ id) = some id := by
  have htake : takeExact 11 id.data = some id.data := takeExact_full 11 id.data hlen hchars
  refine ⟨?_, ?_, ?_, ?_⟩
  · have hsplit : ("https://www.youtube.com/watch?v=" ++ id).data =
        "https://www.youtube.com/watch?".data ++ ("v=".data ++ id.data) := rfl
    unfold extract_youtube_id
    rw [hsplit, cleanTails _ _ (by decide),
      regex1_hit _ _ (tryAt_vEq id.data id.data htake)]
  · have hsplit : ("https://youtu.be/" ++ id).data =
        "https://".data ++ ("youtu.be/".data ++ id.data) := rfl
    unfold extract_youtube_id
    rw [hsplit, cleanTails _ _ (by decide),
      regex1_hit _ _ (tryAt_ytbe id.data id.data htake)]
  · have hsplit : ("https://www.youtube.com/embed/" ++ id).data =
        "https://www.youtube.com/".data ++ ("embed/".data ++ id.data) := rfl
    unfold extract_youtube_id
    rw [hsplit, cleanTails _ _ (by decide),
      regex1_hit _ _ (tryAt_embed id.data id.data htake)]
  · have hsplit : ("https://www.youtube.com/live/" ++ id).data =
        "https://www.youtube.com/".data ++ ("live/".data ++ id.data) := rfl
    unfold extract_youtube_id
    rw [hsplit, cleanTails _ _ (by decide),
      regex1_hit _ _ (tryAt_live id.data id.data htake)]

/-- Witness for C4 at a concrete id. -/
theorem C4_same_id_across_shapes_witness :
    extract_youtube_id ("https://www.youtube.com/watch?v=" ++ "dQw4w9WgXcQ") =
      some "dQw4w9WgXcQ" ∧
    extract_youtube_id ("https://youtu.be/" ++ "dQw4w9WgXcQ") = some "dQw4w9WgXcQ" :=
  ⟨(C4_same_id_across_shapes "dQw4w9WgXcQ" (by decide) (by decide)).1,
   (C4_same_id_across_shapes "dQw4w9WgXcQ" (by decide) (by decide)).2.1⟩

/-- Counterexample for C4 as frozen: a googleusercontent-shape URL carrying
the 11-character id "2aaaaaaaaaa" (preceded by the digit 1 the pattern
requires) yields "aaaaaaaaaa": a non-None result of length 10, different
from the id the watch?v= shape extracts. -/
theorem C4_length_counterexample :
    extract_youtube_id "https://www.youtube.com/watch?v=2aaaaaaaaaa" =
      some "2aaaaaaaaaa" ∧
    extract_youtube_id "https://googleusercontent.com/youtube.com/12aaaaaaaaaa" =
      some "aaaaaaaaaa" ∧
    ("2aaaaaaaaaa" : String).length = 11 ∧
    ("aaaaaaaaaa" : String).length ≠ 11 := by
  exact ⟨rfl, rfl, by decide, by decide⟩

/-! ### C6: free-text input -/

/-- C6 (amended): for a free-text input (nonempty, neither a correction-table
key nor a known city name) `process_query` performs no weather lookup and
returns a uniformly random music recommendation from the no-repeat pool:
exactly the result of `random_music_recommendation`, with no weather image.
The input keyword plays no role in the selection (the fuzzy matcher is not
invoked on this path). -/
theorem C6_free_text_is_random (env : Env) (city_input : String)
    (location_names : List String) (all_videos : List Video)
    (movie_poster_urls : List Movie) (recommend_music : Bool)
    (codes : List (String × String)) (s : SessionState) (r rf : Nat)
    (h1 : dictGet MANUAL_CORRECTIONS city_input = none)
    (h2 : city_input ∉ location_names) (h3 : city_input ≠ "") :
    (process_query env city_input location_names all_videos movie_poster_urls
       recommend_music codes s r rf).2 = none ∧
    (process_query env city_input location_names all_videos movie_poster_urls
       recommend_music codes s r rf).1 =
      { (random_music_recommendation all_videos (reset_recommendation_states s) r).2 with
        result_text :=
          (random_music_recommendation all_videos (reset_recommendation_states s) r).1.1,
        recommended_youtube_id :=
          (random_music_recommendation all_videos (reset_recommendation_states s) r).1.2,
        recommended_weather_image_html := none,
        weather_image_caption_desc := none } := by
  simp only [process_query, if_neg h3, h1, if_neg h2]
  exact ⟨trivial, trivial⟩

/-- Witness for C6 at a concrete free-text input. -/
theorem C6_free_text_is_random_witness :
    (process_query envMood "心情" [] aVMood [] true [] initSession 1 1).2 = none :=
  (C6_free_text_is_random envMood "心情" [] aVMood [] true [] initSession 1 1
    (by decide) (by decide) (by decide)).1

/-- Counterexample for C6 as frozen: the free-text keyword "心情" scores 100
against the first video and 0 against the second, so the program's own
weather-matching selector (`find_and_recommend_music`) deterministically
returns the first video's id; `process_query`, however, returns the second
video's id on the same session state: the selection is not fuzzy-matched
against the catalogue descriptions. -/
theorem C6_free_text_counterexample :
    dictGet MANUAL_CORRECTIONS "心情" = none ∧
    (find_and_recommend_music prMood aVMood "心情" initSession 1 1).1.2 =
      some "aaaaaaaaaaa" ∧
    (process_query envMood "心情" [] aVMood [] true []
        initSession 1 1).1.recommended_youtube_id = some "bbbbbbbbbbb" := by
  exact ⟨by decide, by decide, by decide⟩

/-! ### Nonempty strings, scan characterizations, and get_weather_data -/

theorem append_ne_empty_left (a b : String) (ha : a.data ≠ []) : a ++ b ≠ "" := by
  intro he
  apply ha
  have hd : a.data ++ b.data = [] := congrArg String.data he
  exact (List.append_eq_nil.mp hd).1

theorem data_append_ne_nil (a b : String) (ha : a.data ≠ []) : (a ++ b).data ≠ [] := by
  intro hd
  have hd' : a.data ++ b.data = [] := hd
  exact ha (List.append_eq_nil.mp hd').1

theorem scanInterval_ok_iff (startSec : Nat) (l : List TimeEntry) :
    scanFailure startSec l = false ↔ ∃ v, scanInterval startSec l = Except.ok v := by
  induction l with
  | nil =>
    constructor
    · intro _
      exact ⟨none, rfl⟩
    · intro _
      rfl
  | cons t ts ih =>
    simp only [scanFailure, scanInterval]
    cases h1 : strptimeYmdHMS t.startTime with
    | none =>
      constructor
      · intro hf
        exact Bool.noConfusion hf
      · rintro ⟨v, hv⟩
        exact Except.noConfusion hv
    | some ps =>
      cases h2 : strptimeYmdHMS t.endTime with
      | none =>
        constructor
        · intro hf
          exact Bool.noConfusion hf
        · rintro ⟨v, hv⟩
          exact Except.noConfusion hv
      | some pe =>
        dsimp only
        by_cases hc : dtToSec ps ≤ startSec ∧ startSec < dtToSec pe
        · rw [if_pos hc, if_pos hc]
          constructor
          · intro _
            exact ⟨some t.parameterName, rfl⟩
          · intro _
            rfl
        · rw [if_neg hc, if_neg hc]
          exact ih

theorem popLogic_ok_iff (e : Option WElem) (startSec : Nat) :
    elemScanFailure e startSec = false ↔ ∃ v, popLogic e startSec = Except.ok v := by
  cases e with
  | none =>
    constructor
    · intro _
      exact ⟨"N/A", rfl⟩
    · intro _
      rfl
  | some el =>
    simp only [elemScanFailure, popLogic]
    cases hs : scanInterval startSec el.time with
    | error err =>
      constructor
      · intro hf
        rcases (scanInterval_ok_iff startSec el.time).mp hf with ⟨v, hv⟩
        rw [hs] at hv
        exact Except.noConfusion hv
      · rintro ⟨v, hv⟩
        exact Except.noConfusion hv
    | ok ov =>
      constructor
      · intro _
        cases ov with
        | some p => exact ⟨p ++ "%", rfl⟩
        | none =>
          cases el.time with
          | nil => exact ⟨"N/A", rfl⟩
          | cons t0 ts => exact ⟨t0.parameterName ++ "%", rfl⟩
      · intro _
        exact (scanInterval_ok_iff startSec el.time).mpr ⟨ov, hs⟩

theorem tempLogic_ok_iff (e : Option WElem) (startSec : Nat) :
    elemScanFailure e startSec = false ↔ ∃ v, tempLogic e startSec = Except.ok v := by
  cases e with
  | none =>
    constructor
    · intro _
      exact ⟨"N/A", rfl⟩
    · intro _
      rfl
  | some el =>
    simp only [elemScanFailure, tempLogic]
    cases hs : scanInterval startSec el.time with
    | error err =>
      constructor
      · intro hf
        rcases (scanInterval_ok_iff startSec el.time).mp hf with ⟨v, hv⟩
        rw [hs] at hv
        exact Except.noConfusion hv
      · rintro ⟨v, hv⟩
        exact Except.noConfusion hv
    | ok ov =>
      constructor
      · intro _
        cases ov with
        | some p =>
          dsimp only
          by_cases hv : p = "N/A"
          · rw [if_pos hv]
            cases el.time with
            | nil => exact ⟨_, rfl⟩
            | cons t0 ts => exact ⟨_, rfl⟩
          · rw [if_neg hv]
            exact ⟨_, rfl⟩
        | none =>
          dsimp only
          rw [if_pos rfl]
          cases el.time with
          | nil => exact ⟨_, rfl⟩
          | cons t0 ts => exact ⟨_, rfl⟩
      · intro _
        exact (scanInterval_ok_iff startSec el.time).mpr ⟨ov, hs⟩

theorem popLogic_error_of_failure (e : Option WElem) (startSec : Nat)
    (h : elemScanFailure e startSec = true) :
    ∃ err, popLogic e startSec = Except.error err := by
  cases hp : popLogic e startSec with
  | error err => exact ⟨err, rfl⟩
  | ok v =>
    have hf := (popLogic_ok_iff e startSec).mpr ⟨v, hp⟩
    rw [h] at hf
    exact Bool.noConfusion hf

theorem tempLogic_error_of_failure (e : Option WElem) (startSec : Nat)
    (h : elemScanFailure e startSec = true) :
    ∃ err, tempLogic e startSec = Except.error err := by
  cases hp : tempLogic e startSec with
  | error err => exact ⟨err, rfl⟩
  | ok v =>
    have hf := (tempLogic_ok_iff e startSec).mpr ⟨v, hp⟩
    rw [h] at hf
    exact Bool.noConfusion hf

theorem gwdAssemble_ok_status (city : String) (ld : LocationData) (desc : String)
    (sdt : DT) (r : WeatherData) (h : gwdAssemble city ld desc sdt = Except.ok r) :
    r.status = "success" := by
  simp only [gwdAssemble] at h
  cases hp : popLogic (findElem "PoP" ld.weatherElement) (dtToSec sdt) with
  | error e =>
    rw [hp] at h
    exact Except.noConfusion h
  | ok pop =>
    rw [hp] at h
    cases hm : tempLogic (findElem "MinT" ld.weatherElement) (dtToSec sdt) with
    | error e =>
      rw [hm] at h
      exact Except.noConfusion h
    | ok mn =>
      rw [hm] at h
      cases hx : tempLogic (findElem "MaxT" ld.weatherElement) (dtToSec sdt) with
      | error e =>
        rw [hx] at h
        exact Except.noConfusion h
      | ok mx =>
        rw [hx] at h
        cases h
        rfl

theorem gwdAssemble_cases (city : String) (ld : LocationData) (desc : String) (sdt : DT) :
    if (elemScanFailure (findElem "PoP" ld.weatherElement) (dtToSec sdt) = false ∧
        elemScanFailure (findElem "MinT" ld.weatherElement) (dtToSec sdt) = false ∧
        elemScanFailure (findElem "MaxT" ld.weatherElement) (dtToSec sdt) = false)
    then ∃ r, gwdAssemble city ld desc sdt = Except.ok r ∧ r.status = "success"
    else ∃ e, gwdAssemble city ld desc sdt = Except.error e := by
  split
  case isTrue hOK =>
    obtain ⟨h1, h2, h3⟩ := hOK
    rcases (popLogic_ok_iff _ _).mp h1 with ⟨pop, hp⟩
    rcases (tempLogic_ok_iff _ _).mp h2 with ⟨mn, hm⟩
    rcases (tempLogic_ok_iff _ _).mp h3 with ⟨mx, hx⟩
    cases hga : gwdAssemble city ld desc sdt with
    | error e =>
      exfalso
      simp only [gwdAssemble, hp, hm, hx] at hga
      exact Except.noConfusion hga
    | ok r => exact ⟨r, rfl, gwdAssemble_ok_status city ld desc sdt r hga⟩
  case isFalse hBAD =>
    by_cases h1 : elemScanFailure (findElem "PoP" ld.weatherElement) (dtToSec sdt) = false
    · rcases (popLogic_ok_iff _ _).mp h1 with ⟨pop, hp⟩
      by_cases h2 : elemScanFailure (findElem "MinT" ld.weatherElement) (dtToSec sdt) = false
      · by_cases h3 : elemScanFailure (findElem "MaxT" ld.weatherElement) (dtToSec sdt) = false
        · exact absurd ⟨h1, h2, h3⟩ hBAD
        · rcases (tempLogic_ok_iff _ _).mp h2 with ⟨mn, hm⟩
          rcases tempLogic_error_of_failure _ _ (eq_true_of_ne_false h3) with ⟨e, he⟩
          refine ⟨e, ?_⟩
          simp only [gwdAssemble, hp, hm, he]
      · rcases tempLogic_error_of_failure _ _ (eq_true_of_ne_false h2) with ⟨e, he⟩
        refine ⟨e, ?_⟩
        simp only [gwdAssemble, hp, he]
    · rcases popLogic_error_of_failure _ _ (eq_true_of_ne_false h1) with ⟨e, he⟩
      refine ⟨e, ?_⟩
      simp only [gwdAssemble, he]

theorem gwdCore_ok_shape (city : String) (now : DT) (data : Payload) (r : WeatherData)
    (h : gwdCore city now data = Except.ok r) :
    r.status = "success" ∨ (r.status = "error" ∧ r.display_text ≠ "") := by
  obtain ⟨rl⟩ := data
  cases rl with
  | none =>
    simp only [gwdCore] at h
    cases h
    right
    exact ⟨rfl, append_ne_empty_left _ _ (data_append_ne_nil _ _ (by decide))⟩
  | some locs =>
    cases locs with
    | nil =>
      simp only [gwdCore] at h
      cases h
      right
      exact ⟨rfl, append_ne_empty_left _ _ (data_append_ne_nil _ _ (by decide))⟩
    | cons ld rest =>
      simp only [gwdCore] at h
      cases hwx : findElem "Wx" ld.weatherElement with
      | none =>
        rw [hwx] at h
        try dsimp only at h
        cases h
        right
        exact ⟨rfl, append_ne_empty_left _ _ (data_append_ne_nil _ _ (by decide))⟩
      | some wx =>
        rw [hwx] at h
        try dsimp only at h
        cases hflt : wx.time.filter (fun t => (strptimeYmdHMS t.startTime).isSome) with
        | nil =>
          rw [hflt] at h
          try dsimp only at h
          cases h
          right
          exact ⟨rfl, append_ne_empty_left _ _ (data_append_ne_nil _ _ (by decide))⟩
        | cons f0 frest =>
          rw [hflt] at h
          try dsimp only at h
          left
          exact gwdAssemble_ok_status _ _ _ _ _ h

theorem gwd_status_cases (city : String) (now : DT) (resp : Except String Payload) :
    (get_weather_data city now resp).status = "success" ∨
    ((get_weather_data city now resp).status = "error" ∧
     (get_weather_data city now resp).display_text ≠ "") := by
  cases resp with
  | error e =>
    right
    refine ⟨rfl, ?_⟩
    apply append_ne_empty_left
    apply data_append_ne_nil
    apply data_append_ne_nil
    apply data_append_ne_nil
    decide
  | ok data =>
    unfold get_weather_data
    dsimp only
    cases hcore : gwdCore city now data with
    | error e =>
      right
      refine ⟨rfl, ?_⟩
      apply append_ne_empty_left
      apply data_append_ne_nil
      apply data_append_ne_nil
      decide
    | ok r =>
      exact gwdCore_ok_shape city now data r hcore

theorem gwd_success_iff_check (city : String) (now : DT) (data : Payload) :
    (get_weather_data city now (Except.ok data)).status = "success" ↔
      gwdSuccessCheck now data = true := by
  obtain ⟨rl⟩ := data
  cases rl with
  | none => simp [get_weather_data, gwdCore, gwdSuccessCheck, werr]
  | some locs =>
    cases locs with
    | nil => simp [get_weather_data, gwdCore, gwdSuccessCheck, werr]
    | cons ld rest =>
      simp only [get_weather_data, gwdCore, gwdSuccessCheck]
      generalize findElem "Wx" ld.weatherElement = wxo
      cases wxo with
      | none => simp [werr]
      | some wx =>
        try dsimp only
        generalize wx.time.filter (fun t => (strptimeYmdHMS t.startTime).isSome) = flt
        cases flt with
        | nil => simp [werr]
        | cons f0 frest =>
          try dsimp only
          rw [show forecastStartSec now f0 frest =
            dtToSec ((strptimeYmdHMS (minByKey (forecastKey now) f0 frest).startTime).getD
              default) from rfl]
          generalize minByKey (forecastKey now) f0 frest = fc
          generalize hsd : dtToSec ((strptimeYmdHMS fc.startTime).getD default) = SD
          have hc := gwdAssemble_cases city ld fc.parameterName
            ((strptimeYmdHMS fc.startTime).getD default)
          rw [hsd] at hc
          by_cases hOK : (elemScanFailure (findElem "PoP" ld.weatherElement) SD = false ∧
              elemScanFailure (findElem "MinT" ld.weatherElement) SD = false ∧
              elemScanFailure (findElem "MaxT" ld.weatherElement) SD = false)
          · rw [if_pos hOK] at hc
            rcases hc with ⟨r, hga, hst⟩
            rw [hga]
            simp [hst, hOK.1, hOK.2.1, hOK.2.2]
          · rw [if_neg hOK] at hc
            rcases hc with ⟨e, hga⟩
            rw [hga]
            constructor
            · intro hxx
              have hes : ("error" : String) = "success" := hxx
              exact absurd hes (by decide)
            · intro hrhs
              exfalso
              apply hOK
              simp only [Bool.and_eq_true, Bool.not_eq_true'] at hrhs
              exact ⟨hrhs.1.1, hrhs.1.2, hrhs.2⟩

/-! ### C5: graceful degradation of failures -/

/-- C5 (amended): every modelled failure degrades to a returned value —
`get_weather_data` always returns a dictionary, on failure an error-status
one with a nonempty user-visible text; the Excel and CSV loaders return
empty collections when reading fails; the API-key read catches its KeyError
and only shows a banner — with the exception of `set_background`, which has
no handler and propagates the exception when the background image file is
missing (see the counterexample). -/
theorem C5_graceful_degradation :
    (∀ (city : String) (now : DT) (resp : Except String Payload),
      (get_weather_data city now resp).status = "success" ∨
      ((get_weather_data city now resp).status = "error" ∧
       (get_weather_data city now resp).display_text ≠ "")) ∧
    (∀ e, init_videos (Except.error e) = []) ∧
    (∀ content, load_weather_codes false content = []) ∧
    (∀ e, load_weather_codes true (Except.error e) = []) ∧
    (∀ secrets k, dictGet secrets "API_KEY" = some k →
      read_api_key secrets = (some k, false)) ∧
    (∀ secrets, dictGet secrets "API_KEY" = none →
      read_api_key secrets = (none, true)) ∧
    (∀ f fs, fs f = none →
      set_background f fs = Except.error ("FileNotFoundError: " ++ f)) := by
  refine ⟨gwd_status_cases, fun _ => rfl, fun _ => rfl, fun _ => rfl, ?_, ?_, ?_⟩
  · intro secrets k hk
    simp [read_api_key, hk]
  · intro secrets hk
    simp [read_api_key, hk]
  · intro f fs hf
    simp [set_background, hf]

/-- Witness for C5: a network failure yields an error dictionary with a
visible message, and a missing API key yields a banner, not an exception. -/
theorem C5_graceful_degradation_witness :
    ((get_weather_data "臺北市" nowFix (Except.error "timeout")).status = "success" ∨
     ((get_weather_data "臺北市" nowFix (Except.error "timeout")).status = "error" ∧
      (get_weather_data "臺北市" nowFix (Except.error "timeout")).display_text ≠ "")) ∧
    read_api_key [("OTHER", "x")] = (none, true) :=
  ⟨C5_graceful_degradation.1 "臺北市" nowFix (Except.error "timeout"),
   C5_graceful_degradation.2.2.2.2.2.1 [("OTHER", "x")] (by decide)⟩

/-- Counterexample for C5 as frozen: `set_background` opens the image file
with no exception handler, so a missing `background.jpg` raises an exception
to the caller instead of degrading to a message or default image. -/
theorem C5_set_background_counterexample :
    set_background "background.jpg" (fun _ => none) =
      Except.error "FileNotFoundError: background.jpg" := rfl

/-! ### C7: the success/error characterization of get_weather_data -/

/-- C7 (amended): on a decoded payload, `get_weather_data` returns a
success-status result if and only if `records.location` is nonempty, its
first location has a weatherElement named Wx with at least one time entry
whose startTime parses in the '%Y-%m-%d %H:%M:%S' format, and additionally
the PoP/MinT/MaxT interval scans reach no unparseable startTime/endTime
before their containing interval (all captured by `gwdSuccessCheck`); every
payload failing that check — and any network-level failure — produces a
dictionary with status 'error' and a nonempty user-visible `display_text`.
The frozen claim omits the scan condition; see the counterexample. -/
theorem C7_success_characterization (city : String) (now : DT) (data : Payload) :
    ((get_weather_data city now (Except.ok data)).status = "success" ↔
      gwdSuccessCheck now data = true) ∧
    (gwdSuccessCheck now data = false →
      (get_weather_data city now (Except.ok data)).status = "error" ∧
      (get_weather_data city now (Except.ok data)).display_text ≠ "") ∧
    (∀ e, (get_weather_data city now (Except.error e)).status = "error" ∧
      (get_weather_data city now (Except.error e)).display_text ≠ "") := by
  refine ⟨gwd_success_iff_check city now data, ?_, ?_⟩
  · intro hfalse
    rcases gwd_status_cases city now (Except.ok data) with hsucc | herr
    · rw [gwd_success_iff_check city now data] at hsucc
      rw [hsucc] at hfalse
      exact Bool.noConfusion hfalse
    · exact herr
  · intro e
    refine ⟨rfl, ?_⟩
    apply append_ne_empty_left
    apply data_append_ne_nil
    apply data_append_ne_nil
    apply data_append_ne_nil
    decide

/-- Witness for C7: a payload with a malformed PoP start time fails the
check and indeed yields an error dictionary with a visible message. -/
theorem C7_success_characterization_witness :
    (get_weather_data "臺北市" nowFix (Except.ok plPopBad)).status = "error" ∧
    (get_weather_data "臺北市" nowFix (Except.ok plPopBad)).display_text ≠ "" :=
  (C7_success_characterization "臺北市" nowFix plPopBad).2.1 (by decide)

/-- Counterexample for C7 as frozen: this payload has a nonempty
`records.location` whose first location carries a Wx element with a time
entry whose startTime parses — everything the frozen claim requires for
success — yet `get_weather_data` returns an error-status dictionary, because
the PoP element's startTime does not parse and the scan raises. -/
theorem C7_success_counterexample :
    plPopBad.recordsLocation =
      some [⟨[⟨"Wx", [wxEntryOK]⟩, ⟨"PoP", [popEntryBad]⟩]⟩] ∧
    findElem "Wx"
        (⟨[⟨"Wx", [wxEntryOK]⟩, ⟨"PoP", [popEntryBad]⟩]⟩ : LocationData).weatherElement =
      some ⟨"Wx", [wxEntryOK]⟩ ∧
    ([wxEntryOK].filter (fun t => (strptimeYmdHMS t.startTime).isSome)) ≠ [] ∧
    (get_weather_data "臺北市" nowFix (Except.ok plPopBad)).status = "error" := by
  exact ⟨rfl, by decide, by decide, by decide⟩

end WeatherArt
